import Mathlib

/-!
UIO Hilscher netX card driver (`driver/uio_netx/uio_netx.c`).

A shallow embedding of the driver built with `DMA_SUPPORT` defined.

* C integers are `Nat`/`Int`; 32-bit operations are reduced explicitly.
* Pointers are `Nat` addresses, `0` is `NULL`.
* Kernel services (allocators, PCI core, UIO core) are an oracle `Env` that
  fixes the outcome of every call; each call is appended to a chronological
  `trace` of `Event`s.
* An access to `info->mem[idx]` with `idx` outside `0 .. MAX_UIO_MAPS-1`
  or a dereference of a `NULL` record is undefined behaviour: the embedded
  function then yields `none`.
* `dev_info`/`printk` log lines and the `memset` of a fresh DMA buffer are
  not recorded; they touch no state the driver reads again.
* The `int32_t` counters `dmacount` and `memcount` are `Int`; the conversions
  of line 218 and line 232 between `int32_t` and `unsigned long` are explicit
  (`toULong`, `toInt32`), the increments and decrements by one are not
  wrapped.  Module parameters are values of `unsigned long`, that is below
  `2 ^ BITS_PER_LONG`.
* `netx_pci_probe` is one C function; it is embedded as `probe_windows`
  (lines 245-311), `probe_variant` (lines 313-347) and `probe_finish`
  (lines 348-377), with one function per error label.
-/

namespace UioNetx

/-! ## Constants of the driver (lines 36-73) -/

def PCI_VENDOR_ID_HILSCHER : Nat := 0x15CF
def PCI_DEVICE_ID_HILSCHER_NETX : Nat := 0x0000
def PCI_DEVICE_ID_HILSCHER_NETPLC : Nat := 0x0010
def PCI_DEVICE_ID_HILSCHER_NETJACK : Nat := 0x0020
def PCI_SUBDEVICE_ID_NXSB_PCA : Nat := 0x3235
def PCI_SUBDEVICE_ID_NXPCA : Nat := 0x3335
def PCI_SUBDEVICE_ID_NETPLC_RAM : Nat := 0x0000
def PCI_SUBDEVICE_ID_NETPLC_FLASH : Nat := 0x0001
def PCI_SUBDEVICE_ID_NETJACK_RAM : Nat := 0x0000
def PCI_SUBDEVICE_ID_NETJACK_FLASH : Nat := 0x0001

def DPM_HOST_INT_EN0 : Nat := 0xfff0
def DPM_HOST_INT_STAT0 : Nat := 0xffe0
def PLX_GPIO_OFFSET : Nat := 0x15
def PLX_TIMING_OFFSET : Nat := 0x0a

def DPM_HOST_INT_MASK : Nat := 0xe600ffff
def DPM_HOST_INT_GLOBAL_EN : Nat := 0x80000000
def PLX_GPIO_DATA0_MASK : Nat := 0x00000004
def PLX_GPIO_DATA1_MASK : Nat := 0x00000020

def NX_PCA_PCI_8_BIT_DPM_MODE : Nat := 0x5431F962
def NX_PCA_PCI_16_BIT_DPM_MODE : Nat := 0x4073F8E2
def NX_PCA_PCI_32_BIT_DPM_MODE : Nat := 0x40824122

def DPM_BAR : Nat := 0
def EXT_MEM_BAR : Nat := 1
def PLX_DPM_BAR : Nat := 2
def PXA_PLX_BAR : Nat := 0

def DPM_INDEX : Nat := 0
def EXT_MEM_INDEX : Nat := 1

def DPM_MEM_NAME : String := "dpm"
def EXT_MEM_NAME : String := "extmem"
def DMA_MEM_NAME : String := "dma"

/-! ## Constants of the kernel headers

The errno values are those of `asm-generic/errno-base.h`.  The remaining
kernel constants are not fixed by the driver and are parameters. -/

def ENOMEM : Int := 12
def ENODEV : Int := 19
def EINVAL : Int := 22

/-- Kernel constants the driver is compiled against. -/
structure Platform where
  /-- Number of entries of `uio_info.mem` (`linux/uio_driver.h`). -/
  MAX_UIO_MAPS : Nat
  /-- Width in bits of `unsigned long`. -/
  BITS_PER_LONG : Nat
  PAGE_SHIFT : Nat
  UIO_MEM_PHYS : Nat
  PCI_VENDOR_ID_PLX : Nat
  PCI_DEVICE_ID_PLX_9030 : Nat

/-- The values of a 64-bit x86 Linux kernel. -/
def linux_x86_64 : Platform :=
  { MAX_UIO_MAPS := 5, BITS_PER_LONG := 64, PAGE_SHIFT := 12, UIO_MEM_PHYS := 1,
    PCI_VENDOR_ID_PLX := 0x10b5, PCI_DEVICE_ID_PLX_9030 := 0x9030 }

/-- Module parameters (lines 23-25), all `unsigned long`. -/
structure ModParams where
  ulDMADisable : Nat
  ulDMABufferCount : Nat
  ulDMABufferSize : Nat

/-- The defaults of lines 20-25: DMA enabled, one buffer of 64 KiB. -/
def defaultParams : ModParams :=
  { ulDMADisable := 0, ulDMABufferCount := 1, ulDMABufferSize := 8 * 8 * 1024 }

/-! ## Data structures -/

/-- The fields of `struct uio_mem` the driver uses. -/
structure uio_mem where
  name : String
  addr : Nat
  size : Nat
  memtype : Nat
  internal_addr : Nat
deriving DecidableEq, Repr

/-- A zero-filled `struct uio_mem` (the name pointer is `NULL`). -/
def uio_mem.zero : uio_mem :=
  { name := "", addr := 0, size := 0, memtype := 0, internal_addr := 0 }

/-- Bridge record `struct pxa_dev_info` (lines 75-79). -/
structure pxa_dev_info where
  plx : Nat
  dpm_mode : Nat
  plx_timing : Nat
deriving DecidableEq, Repr

/-- Private data `struct uio_netx_priv` (lines 81-85).  `pxa_info` is `none`
for a `NULL` pointer and otherwise the record pointed to. -/
structure uio_netx_priv where
  dmacount : Int
  memcount : Int
  pxa_info : Option pxa_dev_info
deriving DecidableEq, Repr

/-- The fields of `struct uio_info` the driver sets. `irq_flags` and `handler`
are fixed at lines 309-310 and are not carried. -/
structure uio_info where
  name : String
  version : String
  mem : Nat → uio_mem
  irq : Nat

/-- Identity tuple `struct pci_device_id`. -/
structure pci_device_id where
  vendor : Nat
  device : Nat
  subvendor : Nat
  subdevice : Nat
deriving DecidableEq, Repr

/-- Heap objects obtained with `kzalloc`. -/
inductive Obj where
  | info
  | priv
  | pxa
deriving DecidableEq, Repr

/-- Calls into the kernel and stores to device memory, as they are issued. -/
inductive Event where
  | kzalloc (o : Obj) (ok : Bool)
  | kfree (o : Obj) (nonnull : Bool)
  | pci_enable_device (ok : Bool)
  | pci_disable_device
  | pci_request_regions (ok : Bool)
  | pci_release_regions
  | ioremap_nocache (start len result : Nat)
  | iounmap (ptr : Nat)
  | write32 (addr val : Nat)
  | pci_set_dma_mask
  | pci_alloc_consistent (size addr busaddr : Nat)
  | set_memory_uc (addr pages : Nat)
  | set_memory_wb (addr pages : Nat)
  | pci_free_consistent (size addr busaddr : Nat)
  | uio_register_device (ok : Bool)
  | uio_unregister_device
  | pci_set_drvdata (nonnull : Bool)
deriving DecidableEq, Repr

/-- The session as the driver sees it: the `uio_info` record, the private
record it points to, the contents of device memory by byte address, and the
calls issued so far. -/
structure World where
  info : uio_info
  priv : uio_netx_priv
  io : Nat → Nat
  trace : List Event

/-- Outcomes of the kernel services during one probe. -/
structure Env where
  kzalloc : Obj → Bool
  pci_enable_device : Bool
  pci_request_regions : Bool
  pci_resource_start : Nat → Nat
  pci_resource_len : Nat → Nat
  /-- Result of `ioremap_nocache(start, len)`, `0` on failure. -/
  ioremap_nocache : Nat → Nat → Nat
  /-- Result `(addr, busaddr)` of the `i`-th `pci_alloc_consistent` of one
  `add_dma` call (counted from 0); `addr = 0` on failure. -/
  pci_alloc_consistent : Nat → Nat × Nat
  uio_register_device : Bool
  irq : Nat
  /-- Initial contents of device memory. -/
  io : Nat → Nat

/-- Result of `netx_handler`. -/
inductive irqreturn_t where
  | IRQ_NONE
  | IRQ_HANDLED
deriving DecidableEq, Repr

/-! ## Primitive operations -/

/-- Bitwise complement of a 32-bit unsigned value. -/
def not32 (x : Nat) : Nat := 0xFFFFFFFF - x % 2 ^ 32

/-- Appends a call to the trace. -/
def emit (e : Event) (w : World) : World :=
  { w with trace := w.trace ++ [e] }

/-- A 32-bit load from device memory. -/
def ioread32 (addr : Nat) (w : World) : Nat := w.io addr

/-- A 32-bit store to device memory. -/
def iowrite32 (val addr : Nat) (w : World) : World :=
  { w with io := Function.update w.io addr val,
           trace := w.trace ++ [Event.write32 addr val] }

/-- Entry `info->mem[idx]`, `none` outside the array. -/
def memGet (P : Platform) (w : World) (idx : Int) : Option uio_mem :=
  if 0 ≤ idx ∧ idx < P.MAX_UIO_MAPS then some (w.info.mem idx.toNat) else none

/-- Store to `info->mem[idx]`, `none` outside the array. -/
def memSet (P : Platform) (w : World) (idx : Int) (m : uio_mem) : Option World :=
  if 0 ≤ idx ∧ idx < P.MAX_UIO_MAPS then
    some { w with info := { w.info with mem := Function.update w.info.mem idx.toNat m } }
  else none

/-- Assignment to `priv->pxa_info`, or to fields of the record it points to. -/
def setPxa (w : World) (p : Option pxa_dev_info) : World :=
  { w with priv := { w.priv with pxa_info := p } }

/-! ## Interrupt handler and bridge helpers (lines 87-163) -/

/-- Model of `netx_handler` (lines 87-110). -/
def netx_handler (w : World) : irqreturn_t × World :=
  match w.priv.pxa_info with
  | some _ => (irqreturn_t.IRQ_NONE, w)
  | none =>
    let int_enable_reg := (w.info.mem 0).internal_addr + DPM_HOST_INT_EN0
    let int_status_reg := (w.info.mem 0).internal_addr + DPM_HOST_INT_STAT0
    if ioread32 int_enable_reg w &&& ioread32 int_status_reg w &&& DPM_HOST_INT_MASK = 0 then
      (irqreturn_t.IRQ_NONE, w)
    else
      (irqreturn_t.IRQ_HANDLED,
        iowrite32 (ioread32 int_enable_reg w &&& not32 DPM_HOST_INT_GLOBAL_EN) int_enable_reg w)

/-- Model of `netx_pxa_set_plx_timing` (lines 112-121); `plx` is a pointer to
32-bit words, so word offset `PLX_TIMING_OFFSET` is byte offset `4 * 0x0a`. -/
def netx_pxa_set_plx_timing (w : World) : Int × World :=
  match w.priv.pxa_info with
  | none => (-ENODEV, w)
  | some pxa => (0, iowrite32 pxa.plx_timing (pxa.plx + 4 * PLX_TIMING_OFFSET) w)

/-- Model of `netx_pxa_get_plx_timing` (lines 123-142). -/
def netx_pxa_get_plx_timing (w : World) : Int × World :=
  match w.priv.pxa_info with
  | none => (-ENODEV, w)
  | some pxa =>
    if pxa.dpm_mode = 8 then
      (0, setPxa w (some { pxa with plx_timing := NX_PCA_PCI_8_BIT_DPM_MODE }))
    else if pxa.dpm_mode = 16 then
      (0, setPxa w (some { pxa with plx_timing := NX_PCA_PCI_16_BIT_DPM_MODE }))
    else if pxa.dpm_mode = 32 then
      (0, setPxa w (some { pxa with plx_timing := NX_PCA_PCI_32_BIT_DPM_MODE }))
    else (-EINVAL, w)

/-- Model of `netx_pxa_get_dpm_mode` (lines 144-163).  The source negates with
the bitwise `~`, and a C condition holds when its value is non-zero. -/
def netx_pxa_get_dpm_mode (w : World) : Int × World :=
  match w.priv.pxa_info with
  | none => (-ENODEV, w)
  | some pxa =>
    let plx_gpio := w.io (pxa.plx + 4 * PLX_GPIO_OFFSET)
    if plx_gpio &&& PLX_GPIO_DATA0_MASK ≠ 0 ∧ not32 (plx_gpio &&& PLX_GPIO_DATA1_MASK) ≠ 0 then
      (0, setPxa w (some { pxa with dpm_mode := 8 }))
    else if not32 (plx_gpio &&& PLX_GPIO_DATA0_MASK) ≠ 0 ∧ plx_gpio &&& PLX_GPIO_DATA1_MASK ≠ 0 then
      (0, setPxa w (some { pxa with dpm_mode := 32 }))
    else if not32 (plx_gpio &&& PLX_GPIO_DATA0_MASK) ≠ 0
        ∧ not32 (plx_gpio &&& PLX_GPIO_DATA1_MASK) ≠ 0 then
      (0, setPxa w (some { pxa with dpm_mode := 16 }))
    else (-EINVAL, w)

/-! ## DMA buffers (lines 165-237) -/

/-- Conversion of an `int32_t` to `unsigned long`. -/
def toULong (P : Platform) (x : Int) : Nat := (x % 2 ^ P.BITS_PER_LONG).toNat

/-- Conversion of an integer to `int32_t` (two's complement). -/
def toInt32 (x : Int) : Int := (x + 2 ^ 31) % 2 ^ 32 - 2 ^ 31

/-- Assignment to `priv->memcount`. -/
def setMemcount (w : World) (v : Int) : World :=
  { w with priv := { w.priv with memcount := v } }

/-- Model of `create_dma_buffer` (lines 166-191).  `call` selects the oracle
answer of `pci_alloc_consistent`; `idx` is the index of the `dma_mem` entry,
which is written only when the allocation succeeded. -/
def create_dma_buffer (P : Platform) (cfg : ModParams) (env : Env) (call : Nat) (idx : Int)
    (w : World) : Option (Int × World) :=
  let r := env.pci_alloc_consistent call
  let w1 := emit (Event.pci_alloc_consistent cfg.ulDMABufferSize r.1 r.2) w
  if r.1 = 0 then some (-ENOMEM, w1)
  else
    let w2 := emit (Event.set_memory_uc r.1 (cfg.ulDMABufferSize >>> P.PAGE_SHIFT)) w1
    match memSet P w2 idx
        { name := DMA_MEM_NAME, addr := r.2, size := cfg.ulDMABufferSize,
          memtype := P.UIO_MEM_PHYS, internal_addr := r.1 } with
    | none => none
    | some w3 => some (0, w3)

/-- The loop of `release_dma_mem` (lines 197-208).  The first argument is the
number of iterations still to run, `max dmacount 0`: the test `dmacount-- > 0`
holds exactly that many times, and decrements `dmacount` also when it fails. -/
def release_dma_loop (P : Platform) : Nat → World → Option World
  | 0, w => some { w with priv := { w.priv with dmacount := w.priv.dmacount - 1 } }
  | n + 1, w =>
    let w1 : World :=
      { w with priv := { w.priv with dmacount := w.priv.dmacount - 1,
                                     memcount := w.priv.memcount - 1 } }
    match memGet P w1 w1.priv.memcount with
    | none => none
    | some m =>
      let w2 := emit (Event.set_memory_wb m.internal_addr (m.size >>> P.PAGE_SHIFT)) w1
      let w3 := emit (Event.pci_free_consistent m.size m.internal_addr m.addr) w2
      match memSet P w3 w1.priv.memcount { m with addr := 0, size := 0, internal_addr := 0 } with
      | none => none
      | some w4 => release_dma_loop P n w4

/-- Model of `release_dma_mem` (lines 193-210); its return value is always 0
and no caller reads it. -/
def release_dma_mem (P : Platform) (w : World) : Option World :=
  release_dma_loop P w.priv.dmacount.toNat w

/-- The loop of `add_dma` (lines 224-233) with its two exits.  The first
argument is `ulDMABufferCount - i`, the number of iterations the test
`i < ulDMABufferCount` still admits; the second is `i`. -/
def add_dma_loop (P : Platform) (cfg : ModParams) (env : Env) : Nat → Nat → World → Option (Int × World)
  | 0, _, w =>
    some (0, setMemcount w (toInt32 ((toULong P w.priv.memcount + cfg.ulDMABufferCount)
                              % 2 ^ P.BITS_PER_LONG : Nat)))
  | r + 1, i, w =>
    match create_dma_buffer P cfg env i ((i : Int) + w.priv.memcount) w with
    | none => none
    | some (ret, w1) =>
      if ret ≠ 0 then
        match release_dma_mem P w1 with
        | none => none
        | some w2 => some (ret, w2)
      else
        add_dma_loop P cfg env r (i + 1)
          { w1 with priv := { w1.priv with dmacount := w1.priv.dmacount + 1 } }

/-- Model of `add_dma` (lines 212-237).  The capacity test is evaluated in
`unsigned long` arithmetic. -/
def add_dma (P : Platform) (cfg : ModParams) (env : Env) (w : World) : Option (Int × World) :=
  if P.MAX_UIO_MAPS < (toULong P w.priv.memcount + cfg.ulDMABufferCount) % 2 ^ P.BITS_PER_LONG then
    some (-ENOMEM, w)
  else
    add_dma_loop P cfg env cfg.ulDMABufferCount 0 (emit Event.pci_set_dma_mask w)

/-! ## Probe and remove (lines 240-424) -/

/-- What `netx_pci_probe` hands back: its return value, the calls it issued
and, when it succeeded, the session stored with `pci_set_drvdata`. -/
structure ProbeResult where
  ret : Int
  trace : List Event
  session : Option World

/-- Progress of the set-up part of probe: it has either left through one of
the error labels, or goes on with the session built so far. -/
inductive Setup where
  | failed (r : ProbeResult)
  | ready (w : World)

/-- Label `out_free` (lines 395-397). -/
def out_free (w : World) : ProbeResult :=
  { ret := -ENODEV, trace := w.trace ++ [Event.kfree Obj.info true], session := none }

/-- Label `out_priv` (line 394), reached with `info->priv` allocated. -/
def out_priv (w : World) : ProbeResult :=
  out_free (emit (Event.kfree Obj.priv true) w)

/-- Label `out_disable` (line 392). -/
def out_disable (w : World) : ProbeResult :=
  out_priv (emit Event.pci_disable_device w)

/-- Label `out_release` (line 390). -/
def out_release (w : World) : ProbeResult :=
  out_disable (emit Event.pci_release_regions w)

/-- Label `out_unmap` (lines 382-388). -/
def out_unmap (P : Platform) (w : World) : Option ProbeResult :=
  match release_dma_mem P w with
  | none => none
  | some w1 =>
    let w2 := emit (Event.iounmap (w1.info.mem DPM_INDEX).internal_addr) w1
    let w3 :=
      if (w2.info.mem EXT_MEM_INDEX).internal_addr ≠ 0 then
        emit (Event.iounmap (w2.info.mem EXT_MEM_INDEX).internal_addr) w2
      else w2
    some (out_release w3)

/-- Label `out_free_pxa` (line 381). -/
def out_free_pxa (P : Platform) (w : World) : Option ProbeResult :=
  out_unmap P (emit (Event.kfree Obj.pxa w.priv.pxa_info.isSome) w)

/-- Label `out_unmap_plx` (line 379); it dereferences `pxa_info`. -/
def out_unmap_plx (P : Platform) (w : World) : Option ProbeResult :=
  match w.priv.pxa_info with
  | none => none
  | some pxa => out_free_pxa P (emit (Event.iounmap pxa.plx) w)

/-- The `switch` of lines 254-270: BAR of the dual-port memory and name. -/
def probe_bar_name (id : pci_device_id) : Nat × String :=
  if id.device = PCI_DEVICE_ID_HILSCHER_NETX then (DPM_BAR, "netx")
  else if id.device = PCI_DEVICE_ID_HILSCHER_NETPLC then (DPM_BAR, "netplc")
  else if id.device = PCI_DEVICE_ID_HILSCHER_NETJACK then (DPM_BAR, "netjack")
  else (PLX_DPM_BAR, "netx_plx")

/-- A `uio_info` and its private record as `kzalloc` returns them. -/
def World.fresh (env : Env) : World :=
  { info := { name := "", version := "", mem := fun _ => uio_mem.zero, irq := 0 },
    priv := { dmacount := 0, memcount := 0, pxa_info := none },
    io := env.io,
    trace := [Event.kzalloc Obj.info true, Event.kzalloc Obj.priv true] }

/-- Store to `info->mem[i]` for one of the constant indices `DPM_INDEX`,
`EXT_MEM_INDEX`. -/
def setMem (w : World) (i : Nat) (m : uio_mem) : World :=
  { w with info := { w.info with mem := Function.update w.info.mem i m } }

/-- Value of `ioremap_nocache(pci_resource_start(dev, bar), pci_resource_len(dev, bar))`. -/
def ioremapBar (env : Env) (bar : Nat) : Nat :=
  env.ioremap_nocache (env.pci_resource_start bar) (env.pci_resource_len bar)

/-- The trace entry of that call. -/
def ioremapEvent (env : Env) (bar : Nat) : Event :=
  Event.ioremap_nocache (env.pci_resource_start bar) (env.pci_resource_len bar) (ioremapBar env bar)

/-- Lines 245-311 of `netx_pci_probe`: allocation of the records, device
enable, region reservation, mapping of the dual-port memory and of the
optional extended memory. -/
def probe_windows (P : Platform) (env : Env) (id : pci_device_id) : Option Setup :=
  if env.kzalloc Obj.info = false then
    some (Setup.failed { ret := -ENOMEM, trace := [Event.kzalloc Obj.info false], session := none })
  else if env.kzalloc Obj.priv = false then
    some (Setup.failed
      { ret := -ENODEV,
        trace := [Event.kzalloc Obj.info true, Event.kzalloc Obj.priv false,
                  Event.kfree Obj.priv false, Event.kfree Obj.info true],
        session := none })
  else
    let w1 := emit (Event.pci_enable_device env.pci_enable_device) (World.fresh env)
    if env.pci_enable_device = false then some (Setup.failed (out_free w1))
    else
      let w2 := emit (Event.pci_request_regions env.pci_request_regions) w1
      if env.pci_request_regions = false then some (Setup.failed (out_disable w2))
      else
        let bar := (probe_bar_name id).1
        let w3 : World := { w2 with info := { w2.info with name := (probe_bar_name id).2 } }
        let w4 := setMem w3 DPM_INDEX
          { w3.info.mem DPM_INDEX with addr := env.pci_resource_start bar }
        if env.pci_resource_start bar = 0 then some (Setup.failed (out_release w4))
        else
          let w5 := setMem (emit (ioremapEvent env bar) w4) DPM_INDEX
            { w4.info.mem DPM_INDEX with internal_addr := ioremapBar env bar }
          if ioremapBar env bar = 0 then some (Setup.failed (out_release w5))
          else
            let w6 := setMem w5 DPM_INDEX
              { w5.info.mem DPM_INDEX with
                size := env.pci_resource_len bar, memtype := P.UIO_MEM_PHYS, name := DPM_MEM_NAME }
            let w7 : World := { w6 with priv := { w6.priv with memcount := 1 } }
            let w8 := setMem w7 EXT_MEM_INDEX
              { w7.info.mem EXT_MEM_INDEX with addr := env.pci_resource_start EXT_MEM_BAR }
            if env.pci_resource_start EXT_MEM_BAR ≠ 0 then
              let w9 := setMem (emit (ioremapEvent env EXT_MEM_BAR) w8) EXT_MEM_INDEX
                { w8.info.mem EXT_MEM_INDEX with internal_addr := ioremapBar env EXT_MEM_BAR }
              if ioremapBar env EXT_MEM_BAR = 0 then (out_unmap P w9).map Setup.failed
              else
                let w10 := setMem w9 EXT_MEM_INDEX
                  { w9.info.mem EXT_MEM_INDEX with
                    size := env.pci_resource_len EXT_MEM_BAR, memtype := P.UIO_MEM_PHYS,
                    name := EXT_MEM_NAME }
                let w11 : World := { w10 with priv := { w10.priv with memcount := w10.priv.memcount + 1 } }
                some (Setup.ready { w11 with info := { w11.info with irq := env.irq, version := "0.0.1" } })
            else
              some (Setup.ready { w8 with info := { w8.info with irq := env.irq, version := "0.0.1" } })

/-- Lines 313-347 of `netx_pci_probe`: the per-variant step. -/
def probe_variant (P : Platform) (env : Env) (id : pci_device_id) (w : World) : Option Setup :=
  if id.device = PCI_DEVICE_ID_HILSCHER_NETX ∨ id.device = PCI_DEVICE_ID_HILSCHER_NETPLC
      ∨ id.device = PCI_DEVICE_ID_HILSCHER_NETJACK then
    some (Setup.ready
      (setPxa (iowrite32 0 ((w.info.mem DPM_INDEX).internal_addr + DPM_HOST_INT_EN0) w) none))
  else if id.subdevice = PCI_SUBDEVICE_ID_NXPCA then
    let w1 := emit (Event.kzalloc Obj.pxa (env.kzalloc Obj.pxa)) w
    if env.kzalloc Obj.pxa = false then (out_unmap P w1).map Setup.failed
    else
      let w2 := setPxa (emit (ioremapEvent env PXA_PLX_BAR) w1)
        (some { plx := ioremapBar env PXA_PLX_BAR, dpm_mode := 0, plx_timing := 0 })
      if ioremapBar env PXA_PLX_BAR = 0 then (out_unmap P w2).map Setup.failed
      else
        let r3 := netx_pxa_get_dpm_mode w2
        if r3.1 ≠ 0 then (out_unmap_plx P r3.2).map Setup.failed
        else
          let r4 := netx_pxa_get_plx_timing r3.2
          if r4.1 ≠ 0 then (out_unmap_plx P r4.2).map Setup.failed
          else
            let r5 := netx_pxa_set_plx_timing r4.2
            if r5.1 ≠ 0 then (out_unmap_plx P r5.2).map Setup.failed
            else some (Setup.ready r5.2)
  else
    let w1 := emit (Event.kzalloc Obj.pxa (env.kzalloc Obj.pxa)) w
    if env.kzalloc Obj.pxa = false then (out_free_pxa P w1).map Setup.failed
    else some (Setup.ready (setPxa w1 (some { plx := 0, dpm_mode := 0, plx_timing := 0 })))

/-- Lines 245-347 of `netx_pci_probe`. -/
def probe_setup (P : Platform) (env : Env) (id : pci_device_id) : Option Setup :=
  match probe_windows P env id with
  | none => none
  | some (Setup.failed r) => some (Setup.failed r)
  | some (Setup.ready w) => probe_variant P env id w

/-- Lines 348-377 of `netx_pci_probe`: DMA reservation and registration. -/
def probe_finish (P : Platform) (cfg : ModParams) (env : Env) (id : pci_device_id) (w : World) :
    Option ProbeResult :=
  let afterDma : Option World :=
    if cfg.ulDMADisable = 0 then (add_dma P cfg env w).map Prod.snd else some w
  match afterDma with
  | none => none
  | some w1 =>
    let w2 := emit (Event.uio_register_device env.uio_register_device) w1
    if env.uio_register_device = false then
      if id.subdevice ≠ PCI_SUBDEVICE_ID_NXPCA then out_unmap P w2 else out_unmap_plx P w2
    else
      let w3 := emit (Event.pci_set_drvdata true) w2
      some { ret := 0, trace := w3.trace, session := some w3 }

/-- Model of `netx_pci_probe` (lines 240-398). -/
def netx_pci_probe (P : Platform) (cfg : ModParams) (env : Env) (id : pci_device_id) :
    Option ProbeResult :=
  match probe_setup P env id with
  | none => none
  | some (Setup.failed r) => some r
  | some (Setup.ready w) => probe_finish P cfg env id w

/-- Lines 416-423 of `netx_pci_remove`: what follows the release of the DMA
buffers. -/
def remove_finish (w5 : World) : World :=
  let w6 := emit Event.pci_release_regions w5
  let w7 := emit Event.pci_disable_device w6
  let w8 := emit (Event.pci_set_drvdata false) w7
  let w9 := emit (Event.iounmap (w8.info.mem DPM_INDEX).internal_addr) w8
  let w10 :=
    if (w9.info.mem EXT_MEM_INDEX).internal_addr ≠ 0 then
      emit (Event.iounmap (w9.info.mem EXT_MEM_INDEX).internal_addr) w9
    else w9
  emit (Event.kfree Obj.info true) (emit (Event.kfree Obj.priv true) w10)

/-- Model of `netx_pci_remove` (lines 400-424), run on the session stored by
a successful probe. -/
def netx_pci_remove (P : Platform) (w : World) : Option World :=
  let pxa_info := w.priv.pxa_info
  let w1 :=
    match pxa_info with
    | none => iowrite32 0 ((w.info.mem DPM_INDEX).internal_addr + DPM_HOST_INT_EN0) w
    | some _ => w
  let w2 :=
    match pxa_info with
    | some pxa => if pxa.plx ≠ 0 then emit (Event.iounmap pxa.plx) w1 else w1
    | none => w1
  let w3 :=
    match pxa_info with
    | some _ => emit (Event.kfree Obj.pxa true) w2
    | none => w2
  let w4 := emit Event.uio_unregister_device w3
  match release_dma_mem P w4 with
  | none => none
  | some w5 => some (remove_finish w5)

/-- The identity table `netx_pci_ids` (lines 426-470), without its terminator. -/
def netx_pci_ids (P : Platform) : List pci_device_id :=
  [ { vendor := PCI_VENDOR_ID_HILSCHER, device := PCI_DEVICE_ID_HILSCHER_NETX,
      subvendor := 0, subdevice := 0 },
    { vendor := P.PCI_VENDOR_ID_PLX, device := P.PCI_DEVICE_ID_PLX_9030,
      subvendor := P.PCI_VENDOR_ID_PLX, subdevice := PCI_SUBDEVICE_ID_NXSB_PCA },
    { vendor := P.PCI_VENDOR_ID_PLX, device := P.PCI_DEVICE_ID_PLX_9030,
      subvendor := P.PCI_VENDOR_ID_PLX, subdevice := PCI_SUBDEVICE_ID_NXPCA },
    { vendor := PCI_VENDOR_ID_HILSCHER, device := PCI_DEVICE_ID_HILSCHER_NETPLC,
      subvendor := PCI_VENDOR_ID_HILSCHER, subdevice := PCI_SUBDEVICE_ID_NETPLC_RAM },
    { vendor := PCI_VENDOR_ID_HILSCHER, device := PCI_DEVICE_ID_HILSCHER_NETPLC,
      subvendor := PCI_VENDOR_ID_HILSCHER, subdevice := PCI_SUBDEVICE_ID_NETPLC_FLASH },
    { vendor := PCI_VENDOR_ID_HILSCHER, device := PCI_DEVICE_ID_HILSCHER_NETJACK,
      subvendor := PCI_VENDOR_ID_HILSCHER, subdevice := PCI_SUBDEVICE_ID_NETJACK_RAM },
    { vendor := PCI_VENDOR_ID_HILSCHER, device := PCI_DEVICE_ID_HILSCHER_NETJACK,
      subvendor := PCI_VENDOR_ID_HILSCHER, subdevice := PCI_SUBDEVICE_ID_NETJACK_FLASH } ]

/-! ## Vocabulary of the statements -/

/-- The session `w` carries the label `name` and its first region is BAR
`bar` of the card, mapped. -/
def Classified (env : Env) (w : World) (name : String) (bar : Nat) : Prop :=
  w.info.name = name ∧
  (w.info.mem DPM_INDEX).addr = env.pci_resource_start bar ∧
  (w.info.mem DPM_INDEX).internal_addr = ioremapBar env bar

/-- The shape of a session the remove path is written for: `nw` mapped
memory windows (the extended memory being the second), followed by `d` DMA
buffers, all inside the `mem` array. -/
def LiveShape (P : Platform) (w : World) (nw d : Nat) : Prop :=
  (nw = 1 ∨ nw = 2) ∧
  w.priv.dmacount = (d : Int) ∧ w.priv.memcount = ((nw + d : Nat) : Int) ∧
  nw + d ≤ P.MAX_UIO_MAPS ∧
  (nw = 2 → (w.info.mem 1).internal_addr ≠ 0) ∧
  (nw = 1 → d = 0 → (w.info.mem 1).internal_addr = 0)

/-- The calls `release_dma_mem` issues for `d` DMA buffers recorded in
`mem[nw] .. mem[nw + d - 1]`: the last buffer first. -/
def dmaReleaseEvents (P : Platform) (mem : Nat → uio_mem) (nw : Nat) : Nat → List Event
  | 0 => []
  | d + 1 =>
    [Event.set_memory_wb (mem (nw + d)).internal_addr ((mem (nw + d)).size >>> P.PAGE_SHIFT),
     Event.pci_free_consistent (mem (nw + d)).size (mem (nw + d)).internal_addr
       (mem (nw + d)).addr]
    ++ dmaReleaseEvents P mem nw d

/-- The calls with which `netx_pci_remove` starts: on a session without
bridge record the store of 0 to the enable register, otherwise the unmapping
of the bridge register window (when mapped) and the release of the record. -/
def removeQuiesceEvents (w : World) : List Event :=
  match w.priv.pxa_info with
  | none => [Event.write32 ((w.info.mem 0).internal_addr + 0xfff0) 0]
  | some pxa => (if pxa.plx ≠ 0 then [Event.iounmap pxa.plx] else []) ++ [Event.kfree Obj.pxa true]

/-- The sequence of calls of `netx_pci_remove` on a session with `nw` memory
windows followed by `d` DMA buffers. -/
def removeEvents (P : Platform) (w : World) (nw d : Nat) : List Event :=
  removeQuiesceEvents w
  ++ [Event.uio_unregister_device]
  ++ dmaReleaseEvents P w.info.mem nw d
  ++ [Event.pci_release_regions, Event.pci_disable_device, Event.pci_set_drvdata false,
      Event.iounmap (w.info.mem 0).internal_addr]
  ++ (if nw = 2 then [Event.iounmap (w.info.mem 1).internal_addr] else [])
  ++ [Event.kfree Obj.priv true, Event.kfree Obj.info true]

/-- Number of successful `kzalloc` calls for `o` in a trace. -/
def acquired (o : Obj) (t : List Event) : Nat := t.count (Event.kzalloc o true)

/-- Number of `kfree` calls on a non-`NULL` `o` in a trace. -/
def released (o : Obj) (t : List Event) : Nat := t.count (Event.kfree o true)

/-! ## Sample environments and sessions -/

/-- A card whose three BARs are present and on which every kernel call
succeeds; the bridge GPIO register reads `gpio`. -/
def goodEnv (gpio : Nat) : Env :=
  { kzalloc := fun _ => true,
    pci_enable_device := true,
    pci_request_regions := true,
    pci_resource_start := fun bar => 0xd0000000 + bar * 0x100000,
    pci_resource_len := fun _ => 0x10000,
    ioremap_nocache := fun start _ => start + 0x1000000000,
    pci_alloc_consistent := fun i => (0x2000000 + i * 0x10000, 0x3000000 + i * 0x10000),
    uio_register_device := true,
    irq := 11,
    io := fun a => if a = 0xd0000000 + 0x1000000000 + 4 * 0x15 then gpio else 0 }

/-- The identity of a netX card (first row of `netx_pci_ids`). -/
def netxId : pci_device_id :=
  { vendor := PCI_VENDOR_ID_HILSCHER, device := PCI_DEVICE_ID_HILSCHER_NETX,
    subvendor := 0, subdevice := 0 }

/-- The identity of the NXPCA-PCI bridge adapter on `linux_x86_64`. -/
def nxpcaId : pci_device_id :=
  { vendor := 0x10b5, device := 0x9030, subvendor := 0x10b5, subdevice := PCI_SUBDEVICE_ID_NXPCA }

/-- The identity of the NXSB-PCA bridge adapter on `linux_x86_64`. -/
def nxsbId : pci_device_id :=
  { vendor := 0x10b5, device := 0x9030, subvendor := 0x10b5, subdevice := PCI_SUBDEVICE_ID_NXSB_PCA }

/-- A card like `goodEnv 0` but without extended memory (BAR 1 absent), on
which the DMA allocation number `failAt` fails; none fails for `failAt = 0`. -/
def netxCard (failAt : Nat) : Env :=
  { goodEnv 0 with
    pci_resource_start := fun bar => if bar = 1 then 0 else 0xd0000000 + bar * 0x100000,
    pci_alloc_consistent := fun i =>
      if i + 1 = failAt then (0, 0) else (0x2000000 + i * 0x10000, 0x3000000 + i * 0x10000) }

/-- A card that has BAR 0 only, on which the bridge record would not be
allocated and nothing but BAR 0 can be mapped. -/
def bar0Card : Env :=
  { goodEnv 0 with
    kzalloc := fun o => o ≠ Obj.pxa,
    pci_resource_start := fun bar => if bar = 0 then 0xd0000000 else 0,
    ioremap_nocache := fun start _ => if start = 0xd0000000 then 0x10d0000000 else 0 }

/-- An identity tuple that is not a row of `netx_pci_ids`. -/
def foreignId : pci_device_id :=
  { vendor := 0x8086, device := 0x1234, subvendor := 0, subdevice := 0 }

/-- A netX session as probe leaves it on a card without extended memory and
with DMA disabled: the dual-port memory is mapped at `0x10d0000000`, the
enable and status registers read `enable` and `status`. -/
def netxSession (enable status : Nat) : World :=
  { info :=
      { name := "netx", version := "0.0.1", irq := 11,
        mem := Function.update (fun _ => uio_mem.zero) 0
          { name := DPM_MEM_NAME, addr := 0xd0000000, size := 0x10000, memtype := 1,
            internal_addr := 0x10d0000000 } },
    priv := { dmacount := 0, memcount := 1, pxa_info := none },
    io := fun a =>
      if a = 0x10d0000000 + 0xfff0 then enable
      else if a = 0x10d0000000 + 0xffe0 then status else 0,
    trace := [] }

/-- A bridge-adapter session right after the register window was mapped at
`0x10d0000000` (line 330): the GPIO register reads `gpio`, the width mode
is `mode`. -/
def bridgeSession (gpio mode : Nat) : World :=
  { info :=
      { name := "netx_plx", version := "0.0.1", irq := 11,
        mem := Function.update (fun _ => uio_mem.zero) 0
          { name := DPM_MEM_NAME, addr := 0xd0200000, size := 0x10000, memtype := 1,
            internal_addr := 0x10d0200000 } },
    priv := { dmacount := 0, memcount := 1,
              pxa_info := some { plx := 0x10d0000000, dpm_mode := mode, plx_timing := 0 } },
    io := fun a => if a = 0x10d0000000 + 4 * 0x15 then gpio else 0,
    trace := [] }

/-- The session `netx_pci_probe` stores for an NXPCA-PCI adapter on
`goodEnv 0x20` with the default parameters (its trace left empty): two memory
windows, one DMA buffer, width mode 32. -/
def nxpcaLive : World :=
  { info :=
      { name := "netx_plx", version := "0.0.1", irq := 11,
        mem := fun i =>
          if i = 0 then
            { name := "dpm", addr := 0xd0200000, size := 0x10000, memtype := 1,
              internal_addr := 0x10d0200000 }
          else if i = 1 then
            { name := "extmem", addr := 0xd0100000, size := 0x10000, memtype := 1,
              internal_addr := 0x10d0100000 }
          else if i = 2 then
            { name := "dma", addr := 0x3000000, size := 0x10000, memtype := 1,
              internal_addr := 0x2000000 }
          else uio_mem.zero },
    priv := { dmacount := 1, memcount := 3,
              pxa_info := some { plx := 0x10d0000000, dpm_mode := 32, plx_timing := 0x40824122 } },
    io := (goodEnv 0x20).io,
    trace := [] }

/-- The calls `netx_pci_remove` issues on `nxpcaLive`. -/
def nxpcaRemoveCalls : List Event :=
  [Event.iounmap 0x10d0000000,
   Event.kfree Obj.pxa true,
   Event.uio_unregister_device,
   Event.set_memory_wb 0x2000000 16,
   Event.pci_free_consistent 0x10000 0x2000000 0x3000000,
   Event.pci_release_regions,
   Event.pci_disable_device,
   Event.pci_set_drvdata false,
   Event.iounmap 0x10d0200000,
   Event.iounmap 0x10d0100000,
   Event.kfree Obj.priv true,
   Event.kfree Obj.info true]

/-! ## Interrupt handler -/

/-- The complement of the global-enable bit as a 32-bit value. -/
theorem not32_global_en : not32 DPM_HOST_INT_GLOBAL_EN = 0x7FFFFFFF := by
  decide

/-- Masking a 32-bit value with `0x7FFFFFFF` clears bit 31 and keeps the rest. -/
theorem land_clear_bit31 (e : Nat) (he : e < 2 ^ 32) (i : Nat) :
    (e &&& 0x7FFFFFFF).testBit i = (decide (i ≠ 31) && e.testBit i) := by
  have hmask : (0x7FFFFFFF : Nat) = 2 ^ 31 - 1 := by norm_num
  rw [Nat.testBit_land, hmask, Nat.testBit_two_pow_sub_one]
  by_cases h31 : i < 31
  · have : i ≠ 31 := by omega
    simp [h31, this]
  · by_cases h : i = 31
    · subst h; simp
    · have hge : 32 ≤ i := by omega
      have hlt : e < 2 ^ i := lt_of_lt_of_le he (Nat.pow_le_pow_right (by norm_num) hge)
      simp [Nat.testBit_eq_false_of_lt hlt]

/-- C1: `netx_handler` reports Handled exactly when the session has no bridge
state and `enable & status & 0xe600ffff` is non-zero.  When it reports
Handled its single effect is the store of `enable & 0x7fffffff` to the enable
register: bit 31 is cleared and every other bit is that of `enable`.  When it
reports NotMine the session, device memory and call trace are unchanged. -/
theorem netx_handler_contract (w : World) (enable status : Nat)
    (hen : w.io ((w.info.mem 0).internal_addr + 0xfff0) = enable)
    (hst : w.io ((w.info.mem 0).internal_addr + 0xffe0) = status)
    (he32 : enable < 2 ^ 32) (_hs32 : status < 2 ^ 32) :
    ((netx_handler w).1 = irqreturn_t.IRQ_HANDLED ↔
        (w.priv.pxa_info = none ∧ enable &&& status &&& 0xe600ffff ≠ 0)) ∧
    ((w.priv.pxa_info = none ∧ enable &&& status &&& 0xe600ffff ≠ 0 ∧
        netx_handler w = (irqreturn_t.IRQ_HANDLED,
          { w with
            io := Function.update w.io ((w.info.mem 0).internal_addr + 0xfff0)
                    (enable &&& 0x7FFFFFFF),
            trace := w.trace ++
              [Event.write32 ((w.info.mem 0).internal_addr + 0xfff0) (enable &&& 0x7FFFFFFF)] }) ∧
        (enable &&& 0x7FFFFFFF).testBit 31 = false ∧
        (∀ i, i ≠ 31 → (enable &&& 0x7FFFFFFF).testBit i = enable.testBit i)) ∨
     (¬ (w.priv.pxa_info = none ∧ enable &&& status &&& 0xe600ffff ≠ 0) ∧
        netx_handler w = (irqreturn_t.IRQ_NONE, w))) := by
  have hbit31 : (enable &&& 0x7FFFFFFF).testBit 31 = false := by
    rw [land_clear_bit31 enable he32]; simp
  have hbits : ∀ i, i ≠ 31 → (enable &&& 0x7FFFFFFF).testBit i = enable.testBit i := by
    intro i hi
    rw [land_clear_bit31 enable he32]; simp [hi]
  cases hp : w.priv.pxa_info with
  | some pxa =>
    simp [netx_handler, hp]
  | none =>
    by_cases hz : enable &&& status &&& 0xe600ffff = 0
    · simp [netx_handler, hp, ioread32, DPM_HOST_INT_EN0, DPM_HOST_INT_STAT0,
        DPM_HOST_INT_MASK, hen, hst, hz]
    · refine ⟨?_, Or.inl ⟨rfl, hz, ?_, hbit31, hbits⟩⟩
      · simp [netx_handler, hp, ioread32, DPM_HOST_INT_EN0, DPM_HOST_INT_STAT0,
          DPM_HOST_INT_MASK, hen, hst, hz]
      · simp [netx_handler, hp, ioread32, iowrite32, DPM_HOST_INT_EN0, DPM_HOST_INT_STAT0,
          DPM_HOST_INT_MASK, hen, hst, hz, not32_global_en]


/-- Witness for C1: enable `0xFFFFFFFF`, status `0x00000001`. -/
theorem netx_handler_contract_witness :
    (netx_handler (netxSession 0xFFFFFFFF 0x00000001)).1 = irqreturn_t.IRQ_HANDLED :=
  (netx_handler_contract (netxSession 0xFFFFFFFF 0x00000001) 0xFFFFFFFF 0x00000001
    (by decide) (by decide) (by norm_num) (by norm_num)).1.2 ⟨rfl, by decide⟩

/-- C5 (counterexample): with the enable register at `0xFFFFFFFF` and the
status register at `0x00010000`, `netx_handler` reports NotMine and writes
nothing, because bit 16 is not part of `DPM_HOST_INT_MASK = 0xe600ffff`. -/
theorem netx_handler_status_bit16_not_mine :
    (0x00010000 : Nat) &&& DPM_HOST_INT_MASK = 0 ∧
    (netx_handler (netxSession 0xFFFFFFFF 0x00010000)).1 = irqreturn_t.IRQ_NONE ∧
    (netx_handler (netxSession 0xFFFFFFFF 0x00010000)).2.trace = [] := by
  decide

/-- C5 (amended): on a session without bridge state whose enable register
holds `0xFFFFFFFF`, `netx_handler` reports Handled exactly when the status
register has a bit of the mask `0xe600ffff` set (`0x00000001` has one), and
then its single store writes `0x7FFFFFFF = 0xFFFFFFFF & ~0x80000000` to the
enable register; when the status has no bit of the mask (`0x00010000` and
`0x00000000` have none) it reports NotMine and changes nothing. -/
theorem netx_handler_example (w : World) (status : Nat)
    (hp : w.priv.pxa_info = none)
    (hen : w.io ((w.info.mem 0).internal_addr + 0xfff0) = 0xFFFFFFFF)
    (hst : w.io ((w.info.mem 0).internal_addr + 0xffe0) = status)
    (hs32 : status < 2 ^ 32) :
    ((status &&& 0xe600ffff ≠ 0 ∧
        netx_handler w = (irqreturn_t.IRQ_HANDLED,
          { w with
            io := Function.update w.io ((w.info.mem 0).internal_addr + 0xfff0) 0x7FFFFFFF,
            trace := w.trace ++
              [Event.write32 ((w.info.mem 0).internal_addr + 0xfff0) 0x7FFFFFFF] })) ∨
     (status &&& 0xe600ffff = 0 ∧ netx_handler w = (irqreturn_t.IRQ_NONE, w))) ∧
    (0x00000001 : Nat) &&& 0xe600ffff ≠ 0 ∧
    (0x00010000 : Nat) &&& 0xe600ffff = 0 ∧
    (0x00000000 : Nat) &&& 0xe600ffff = 0 ∧
    (0x7FFFFFFF : Nat) = 0xFFFFFFFF &&& not32 0x80000000 := by
  have hall : 0xFFFFFFFF &&& status = status := by
    have h1 : (0xFFFFFFFF : Nat) = 2 ^ 32 - 1 := by norm_num
    rw [Nat.land_comm, h1, Nat.and_pow_two_sub_one_eq_mod, Nat.mod_eq_of_lt hs32]
  refine ⟨?_, by decide, by decide, by decide, by decide⟩
  by_cases hz : status &&& 0xe600ffff = 0
  · refine Or.inr ⟨hz, ?_⟩
    simp [netx_handler, hp, ioread32, DPM_HOST_INT_EN0, DPM_HOST_INT_STAT0,
      DPM_HOST_INT_MASK, hen, hst, hall, hz]
  · refine Or.inl ⟨hz, ?_⟩
    have h7 : (0xFFFFFFFF : Nat) &&& 0x7FFFFFFF = 0x7FFFFFFF := by decide
    simp [netx_handler, hp, ioread32, iowrite32, DPM_HOST_INT_EN0, DPM_HOST_INT_STAT0,
      DPM_HOST_INT_MASK, hen, hst, hall, hz, not32_global_en, h7]

/-- Witness for C5 (amended): enable `0xFFFFFFFF`, status `0x00000001`. -/
theorem netx_handler_example_witness :
    (netx_handler (netxSession 0xFFFFFFFF 0x00000001)).1 = irqreturn_t.IRQ_HANDLED ∧
    (netx_handler (netxSession 0xFFFFFFFF 0x00000001)).2.trace
      = [Event.write32 (0x10d0000000 + 0xfff0) 0x7FFFFFFF] := by
  rcases (netx_handler_example (netxSession 0xFFFFFFFF 0x00000001) 0x00000001
    rfl (by decide) (by decide) (by norm_num)).1 with ⟨_, h⟩ | ⟨hz, _⟩
  · rw [h]; exact ⟨rfl, by decide⟩
  · exact absurd hz (by decide)

/-! ## Bridge timing -/

/-- C6: on a session with bridge state, `netx_pxa_get_plx_timing` either finds
the width mode in the table 8 ↦ `0x5431F962`, 16 ↦ `0x4073F8E2`,
32 ↦ `0x40824122`, returns 0 and stores that timing value, after which
`netx_pxa_set_plx_timing` returns 0 and stores exactly that value at word
offset `0x0a` of the register window; or the width mode is none of 8, 16, 32
and it returns the non-zero `-EINVAL` and changes nothing. -/
theorem netx_pxa_plx_timing_table (w : World) (pxa : pxa_dev_info)
    (h : w.priv.pxa_info = some pxa) :
    (∃ timing,
        (pxa.dpm_mode, timing) ∈ [(8, 0x5431F962), (16, 0x4073F8E2), (32, 0x40824122)] ∧
        netx_pxa_get_plx_timing w = (0, setPxa w (some { pxa with plx_timing := timing })) ∧
        netx_pxa_set_plx_timing (netx_pxa_get_plx_timing w).2 =
          (0, { setPxa w (some { pxa with plx_timing := timing }) with
                io := Function.update w.io (pxa.plx + 4 * 0x0a) timing,
                trace := w.trace ++ [Event.write32 (pxa.plx + 4 * 0x0a) timing] })) ∨
    (pxa.dpm_mode ∉ [8, 16, 32] ∧ netx_pxa_get_plx_timing w = (-EINVAL, w) ∧ -EINVAL ≠ 0) := by
  by_cases h8 : pxa.dpm_mode = 8
  · refine Or.inl ⟨0x5431F962, by simp [h8], ?_, ?_⟩ <;>
      simp [netx_pxa_get_plx_timing, netx_pxa_set_plx_timing, h, h8, setPxa, iowrite32,
        NX_PCA_PCI_8_BIT_DPM_MODE, PLX_TIMING_OFFSET]
  · by_cases h16 : pxa.dpm_mode = 16
    · refine Or.inl ⟨0x4073F8E2, by simp [h16], ?_, ?_⟩ <;>
        simp [netx_pxa_get_plx_timing, netx_pxa_set_plx_timing, h, h16, setPxa, iowrite32,
          NX_PCA_PCI_16_BIT_DPM_MODE, PLX_TIMING_OFFSET]
    · by_cases h32 : pxa.dpm_mode = 32
      · refine Or.inl ⟨0x40824122, by simp [h32], ?_, ?_⟩ <;>
          simp [netx_pxa_get_plx_timing, netx_pxa_set_plx_timing, h, h32, setPxa, iowrite32,
            NX_PCA_PCI_32_BIT_DPM_MODE, PLX_TIMING_OFFSET]
      · refine Or.inr ⟨by simp [h8, h16, h32], ?_, by decide⟩
        simp [netx_pxa_get_plx_timing, h, h8, h16, h32]

/-- Witness for C6: width modes 16 and 7. -/
theorem netx_pxa_plx_timing_table_witness :
    (bridgeSession 0 16).priv.pxa_info
        = some { plx := 0x10d0000000, dpm_mode := 16, plx_timing := 0 } ∧
    (netx_pxa_get_plx_timing (bridgeSession 0 16)).1 = 0 ∧
    (netx_pxa_get_plx_timing (bridgeSession 0 7)).1 ≠ 0 := by
  refine ⟨rfl, ?_, ?_⟩
  · rcases netx_pxa_plx_timing_table (bridgeSession 0 16) _ rfl with ⟨t, _, hg, _⟩ | ⟨hn, _, _⟩
    · rw [hg]
    · exact absurd (by decide) hn
  · rcases netx_pxa_plx_timing_table (bridgeSession 0 7) _ rfl with ⟨t, hm, _, _⟩ | ⟨_, hg, hne⟩
    · simp [bridgeSession] at hm
    · rw [hg]; exact hne

/-- In `netx_pxa_get_dpm_mode` each `~(...)` operand is non-zero, whatever
the GPIO register holds. -/
theorem not32_land_ne_zero (g m : Nat) (hm : m < 0xFFFFFFFF) : not32 (g &&& m) ≠ 0 := by
  have h1 : g &&& m ≤ m := Nat.and_le_right
  unfold not32
  have h2 : (g &&& m) % 2 ^ 32 ≤ g &&& m := Nat.mod_le _ _
  omega

/-- The width mode `netx_pxa_get_dpm_mode` stores depends on the two data
lines as follows: DATA0 set gives 8 whatever DATA1 is, DATA0 clear gives 32
when DATA1 is set and 16 when it is clear.  The `-EINVAL` exit is never taken
on a session with bridge state. -/
theorem netx_pxa_get_dpm_mode_spec (w : World) (pxa : pxa_dev_info)
    (h : w.priv.pxa_info = some pxa) :
    netx_pxa_get_dpm_mode w =
      (0, setPxa w (some { pxa with dpm_mode :=
        (if (w.io (pxa.plx + 4 * 0x15)) &&& 0x4 ≠ 0 then 8
         else if (w.io (pxa.plx + 4 * 0x15)) &&& 0x20 ≠ 0 then 32 else 16) })) := by
  have hn0 := not32_land_ne_zero (w.io (pxa.plx + 4 * 0x15)) 0x4 (by norm_num)
  have hn1 := not32_land_ne_zero (w.io (pxa.plx + 4 * 0x15)) 0x20 (by norm_num)
  have hz : not32 0 ≠ 0 := by decide
  by_cases h0 : w.io (pxa.plx + 4 * 0x15) &&& 0x4 = 0
  · by_cases h1 : w.io (pxa.plx + 4 * 0x15) &&& 0x20 = 0
    · simp [netx_pxa_get_dpm_mode, h, PLX_GPIO_OFFSET, PLX_GPIO_DATA0_MASK,
        PLX_GPIO_DATA1_MASK, h0, h1, hn0, hn1, hz]
    · simp [netx_pxa_get_dpm_mode, h, PLX_GPIO_OFFSET, PLX_GPIO_DATA0_MASK,
        PLX_GPIO_DATA1_MASK, h0, h1, hn0, hn1, hz]
  · simp [netx_pxa_get_dpm_mode, h, PLX_GPIO_OFFSET, PLX_GPIO_DATA0_MASK,
      PLX_GPIO_DATA1_MASK, h0, hn0, hn1, hz]

/-- C2 (failing input): with both data lines set (GPIO register `0x24`)
`netx_pxa_get_dpm_mode` returns 0 and stores width mode 8; it does not fail. -/
theorem netx_pxa_get_dpm_mode_both_lines_set :
    (netx_pxa_get_dpm_mode (bridgeSession 0x24 0)).1 = 0 ∧
    (netx_pxa_get_dpm_mode (bridgeSession 0x24 0)).2.priv.pxa_info
      = some { plx := 0x10d0000000, dpm_mode := 8, plx_timing := 0 } := by
  decide

/-! ## DMA reservation -/

/-- C3 (failing input): a netX session with one mapped window (`memcount = 1`,
`dmacount = 0`), `ulDMABufferCount = 2`, the second allocation fails.
`add_dma` returns `-ENOMEM`, but the buffer it hands to `pci_free_consistent`
is the dual-port memory window `mem[0]`, not the DMA buffer recorded in
`mem[1]`; afterwards `dmacount = -1`, `memcount = 0`, `mem[0]` is cleared and
`mem[1]` still describes the DMA buffer, which is never freed.  With the
description's own numbers (four buffers, the third allocation fails) the
release loop goes on to index `mem[-1]`. -/
theorem add_dma_failure_releases_wrong_entries :
    (add_dma linux_x86_64 { defaultParams with ulDMABufferCount := 2 } (netxCard 2)
        (netxSession 0 0)).map (fun r => (r.1, r.2.priv.dmacount, r.2.priv.memcount))
      = some (-ENOMEM, (-1 : Int), (0 : Int)) ∧
    (add_dma linux_x86_64 { defaultParams with ulDMABufferCount := 2 } (netxCard 2)
        (netxSession 0 0)).map (fun r => (r.2.info.mem 0, r.2.info.mem 1))
      = some ({ name := "dpm", addr := 0, size := 0, memtype := 1, internal_addr := 0 },
              { name := "dma", addr := 0x3000000, size := 0x10000, memtype := 1,
                internal_addr := 0x2000000 }) ∧
    (add_dma linux_x86_64 { defaultParams with ulDMABufferCount := 2 } (netxCard 2)
        (netxSession 0 0)).map (fun r => r.2.trace)
      = some [Event.pci_set_dma_mask,
              Event.pci_alloc_consistent 0x10000 0x2000000 0x3000000,
              Event.set_memory_uc 0x2000000 16,
              Event.pci_alloc_consistent 0x10000 0 0,
              Event.set_memory_wb 0x10d0000000 16,
              Event.pci_free_consistent 0x10000 0x10d0000000 0xd0000000] ∧
    (netxSession 0 0).priv.dmacount = 0 ∧ (netxSession 0 0).priv.memcount = 1 ∧
    (netxSession 0 0).info.mem 0
      = { name := "dpm", addr := 0xd0000000, size := 0x10000, memtype := 1,
          internal_addr := 0x10d0000000 } ∧
    add_dma linux_x86_64 { defaultParams with ulDMABufferCount := 4 } (netxCard 3)
        (netxSession 0 0) = none := by
  refine ⟨by decide, by decide, by decide, by decide, by decide, by decide, ?_⟩
  have h : (add_dma linux_x86_64 { defaultParams with ulDMABufferCount := 4 } (netxCard 3)
      (netxSession 0 0)).isNone = true := by decide
  exact Option.isNone_iff_eq_none.mp h

/-- C9 (failing input): `memcount = 1`, `ulDMABufferCount = 2^64 - 1` on a
platform with a 64-bit `unsigned long` and `MAX_UIO_MAPS = 5`.  The sum wraps
to 0, the capacity test passes, and `add_dma` calls `pci_alloc_consistent`:
when that first allocation fails the call is in the trace; when the
allocations succeed the loop runs on to entry `mem[5]`, outside the array. -/
theorem add_dma_capacity_check_wraps :
    (1 + (2 ^ 64 - 1) : Nat) > linux_x86_64.MAX_UIO_MAPS ∧
    (add_dma linux_x86_64 { defaultParams with ulDMABufferCount := 2 ^ 64 - 1 } (netxCard 1)
        (netxSession 0 0)).map (fun r => (r.1, r.2.trace))
      = some (-ENOMEM, [Event.pci_set_dma_mask, Event.pci_alloc_consistent 0x10000 0 0]) ∧
    add_dma linux_x86_64 { defaultParams with ulDMABufferCount := 2 ^ 64 - 1 } (netxCard 0)
        (netxSession 0 0) = none ∧
    (add_dma linux_x86_64 { defaultParams with ulDMABufferCount := 5 } (netxCard 0)
        (netxSession 0 0)).map (fun r => (r.1, r.2.trace)) = some (-ENOMEM, []) := by
  refine ⟨by decide, by decide, ?_, by decide⟩
  have h : (add_dma linux_x86_64 { defaultParams with ulDMABufferCount := 2 ^ 64 - 1 }
      (netxCard 0) (netxSession 0 0)).isNone = true := by decide
  exact Option.isNone_iff_eq_none.mp h

/-! ## Probe: classification -/

/-- The `switch` of probe selects BAR 0 or BAR 2. -/
theorem probe_bar_name_fst (id : pci_device_id) :
    (probe_bar_name id).1 = 0 ∨ (probe_bar_name id).1 = 2 := by
  unfold probe_bar_name
  split_ifs <;> simp [DPM_BAR, PLX_DPM_BAR]

/-- Lines 245-311 succeed when the two records are allocated, the device is
enabled, the regions are reserved, the BAR selected by the `switch` is
present and mapped, and BAR 1 is absent or mapped. -/
theorem probe_windows_ready (P : Platform) (env : Env) (id : pci_device_id)
    (hki : env.kzalloc Obj.info = true) (hkp : env.kzalloc Obj.priv = true)
    (hen : env.pci_enable_device = true) (hreq : env.pci_request_regions = true)
    (hs : env.pci_resource_start (probe_bar_name id).1 ≠ 0)
    (hm : ioremapBar env (probe_bar_name id).1 ≠ 0)
    (h1m : env.pci_resource_start 1 ≠ 0 → ioremapBar env 1 ≠ 0) :
    ∃ w, probe_windows P env id = some (Setup.ready w) ∧
      Classified env w (probe_bar_name id).2 (probe_bar_name id).1 ∧
      w.priv.pxa_info = none := by
  by_cases he : env.pci_resource_start 1 = 0
  · simp [probe_windows, hki, hkp, hen, hreq, hs, hm, he, EXT_MEM_BAR, DPM_INDEX, EXT_MEM_INDEX,
      setMem, emit, World.fresh, Classified]
  · have hem := h1m he
    simp [probe_windows, hki, hkp, hen, hreq, hs, hm, he, hem, EXT_MEM_BAR, DPM_INDEX,
      EXT_MEM_INDEX, setMem, emit, World.fresh, Classified]

/-- The per-variant step on a Hilscher card: interrupts are disabled and no
bridge record is attached. -/
theorem probe_variant_hilscher (P : Platform) (env : Env) (id : pci_device_id) (w : World)
    (hd : id.device = 0x0000 ∨ id.device = 0x0010 ∨ id.device = 0x0020) :
    ∃ w1, probe_variant P env id w = some (Setup.ready w1) ∧ w1.info = w.info ∧
      w1.priv.pxa_info = none := by
  have hd1 : id.device = PCI_DEVICE_ID_HILSCHER_NETX ∨ id.device = PCI_DEVICE_ID_HILSCHER_NETPLC
      ∨ id.device = PCI_DEVICE_ID_HILSCHER_NETJACK := by
    simpa [PCI_DEVICE_ID_HILSCHER_NETX, PCI_DEVICE_ID_HILSCHER_NETPLC,
      PCI_DEVICE_ID_HILSCHER_NETJACK] using hd
  unfold probe_variant
  rw [if_pos hd1]
  simp [setPxa, iowrite32]

/-- The per-variant step on an adapter with subdevice `0x3335`: the bridge
record holds the mapped register window, a width mode of the table and the
timing value of that mode. -/
theorem probe_variant_timed (P : Platform) (env : Env) (id : pci_device_id) (w : World)
    (hd : ¬ (id.device = 0x0000 ∨ id.device = 0x0010 ∨ id.device = 0x0020))
    (hsub : id.subdevice = 0x3335)
    (hk : env.kzalloc Obj.pxa = true) (h0m : ioremapBar env 0 ≠ 0) :
    ∃ w1, probe_variant P env id w = some (Setup.ready w1) ∧ w1.info = w.info ∧
      ∃ mode timing,
        (mode, timing) ∈ [(8, 0x5431F962), (16, 0x4073F8E2), (32, 0x40824122)] ∧
        w1.priv.pxa_info
          = some { plx := ioremapBar env 0, dpm_mode := mode, plx_timing := timing } := by
  have hd1 : ¬ (id.device = PCI_DEVICE_ID_HILSCHER_NETX ∨ id.device = PCI_DEVICE_ID_HILSCHER_NETPLC
      ∨ id.device = PCI_DEVICE_ID_HILSCHER_NETJACK) := by
    simpa [PCI_DEVICE_ID_HILSCHER_NETX, PCI_DEVICE_ID_HILSCHER_NETPLC,
      PCI_DEVICE_ID_HILSCHER_NETJACK] using hd
  have hsub1 : id.subdevice = PCI_SUBDEVICE_ID_NXPCA := by simpa [PCI_SUBDEVICE_ID_NXPCA] using hsub
  have hn0 := not32_land_ne_zero (w.io (ioremapBar env 0 + 4 * 0x15)) 0x4 (by norm_num)
  have hn1 := not32_land_ne_zero (w.io (ioremapBar env 0 + 4 * 0x15)) 0x20 (by norm_num)
  have hz : not32 0 ≠ 0 := by decide
  unfold probe_variant
  rw [if_neg hd1, if_pos hsub1]
  by_cases g0 : w.io (ioremapBar env 0 + 4 * 0x15) &&& 0x4 = 0
  · by_cases g1 : w.io (ioremapBar env 0 + 4 * 0x15) &&& 0x20 = 0
    · simp [hk, PXA_PLX_BAR, h0m, netx_pxa_get_dpm_mode, netx_pxa_get_plx_timing,
        netx_pxa_set_plx_timing, setPxa, emit, iowrite32, PLX_GPIO_OFFSET, PLX_GPIO_DATA0_MASK,
        PLX_GPIO_DATA1_MASK, g0, g1, hn0, hn1, hz, NX_PCA_PCI_16_BIT_DPM_MODE]
    · simp [hk, PXA_PLX_BAR, h0m, netx_pxa_get_dpm_mode, netx_pxa_get_plx_timing,
        netx_pxa_set_plx_timing, setPxa, emit, iowrite32, PLX_GPIO_OFFSET, PLX_GPIO_DATA0_MASK,
        PLX_GPIO_DATA1_MASK, g0, g1, hn0, hn1, hz, NX_PCA_PCI_32_BIT_DPM_MODE]
  · simp [hk, PXA_PLX_BAR, h0m, netx_pxa_get_dpm_mode, netx_pxa_get_plx_timing,
      netx_pxa_set_plx_timing, setPxa, emit, iowrite32, PLX_GPIO_OFFSET, PLX_GPIO_DATA0_MASK,
      PLX_GPIO_DATA1_MASK, g0, hn0, hn1, hz, NX_PCA_PCI_8_BIT_DPM_MODE]

/-- The per-variant step on any other adapter: a zeroed bridge record. -/
theorem probe_variant_passive (P : Platform) (env : Env) (id : pci_device_id) (w : World)
    (hd : ¬ (id.device = 0x0000 ∨ id.device = 0x0010 ∨ id.device = 0x0020))
    (hsub : id.subdevice ≠ 0x3335) (hk : env.kzalloc Obj.pxa = true) :
    ∃ w1, probe_variant P env id w = some (Setup.ready w1) ∧ w1.info = w.info ∧
      w1.priv.pxa_info = some { plx := 0, dpm_mode := 0, plx_timing := 0 } := by
  have hd1 : ¬ (id.device = PCI_DEVICE_ID_HILSCHER_NETX ∨ id.device = PCI_DEVICE_ID_HILSCHER_NETPLC
      ∨ id.device = PCI_DEVICE_ID_HILSCHER_NETJACK) := by
    simpa [PCI_DEVICE_ID_HILSCHER_NETX, PCI_DEVICE_ID_HILSCHER_NETPLC,
      PCI_DEVICE_ID_HILSCHER_NETJACK] using hd
  have hsub1 : ¬ id.subdevice = PCI_SUBDEVICE_ID_NXPCA := by simpa [PCI_SUBDEVICE_ID_NXPCA] using hsub
  unfold probe_variant
  rw [if_neg hd1, if_neg hsub1]
  simp [hk, setPxa, emit]

/-- With every set-up step that is run succeeding, `probe_setup` hands on a
session whose label and primary BAR follow `probe_bar_name` and whose bridge
record follows the device and subdevice ids.  The bridge record is asked for
on adapters only, the register window (BAR 0) on subdevice `0x3335` only. -/
theorem probe_setup_by_device (P : Platform) (env : Env) (id : pci_device_id)
    (hki : env.kzalloc Obj.info = true) (hkp : env.kzalloc Obj.priv = true)
    (hen : env.pci_enable_device = true) (hreq : env.pci_request_regions = true)
    (hs : env.pci_resource_start (probe_bar_name id).1 ≠ 0)
    (hm : ioremapBar env (probe_bar_name id).1 ≠ 0)
    (h1m : env.pci_resource_start 1 ≠ 0 → ioremapBar env 1 ≠ 0)
    (hkx : ¬ (id.device = 0x0000 ∨ id.device = 0x0010 ∨ id.device = 0x0020) →
      env.kzalloc Obj.pxa = true)
    (hrw : ¬ (id.device = 0x0000 ∨ id.device = 0x0010 ∨ id.device = 0x0020) →
      id.subdevice = 0x3335 → ioremapBar env 0 ≠ 0) :
    ∃ w, probe_setup P env id = some (Setup.ready w) ∧
      Classified env w (probe_bar_name id).2 (probe_bar_name id).1 ∧
      ((id.device = 0x0000 ∨ id.device = 0x0010 ∨ id.device = 0x0020) →
        w.priv.pxa_info = none) ∧
      (¬ (id.device = 0x0000 ∨ id.device = 0x0010 ∨ id.device = 0x0020) →
        id.subdevice = 0x3335 →
        ∃ mode timing,
          (mode, timing) ∈ [(8, 0x5431F962), (16, 0x4073F8E2), (32, 0x40824122)] ∧
          w.priv.pxa_info
            = some { plx := ioremapBar env 0, dpm_mode := mode, plx_timing := timing }) ∧
      (¬ (id.device = 0x0000 ∨ id.device = 0x0010 ∨ id.device = 0x0020) →
        id.subdevice ≠ 0x3335 →
        w.priv.pxa_info = some { plx := 0, dpm_mode := 0, plx_timing := 0 }) := by
  obtain ⟨w, hw, hc, _⟩ := probe_windows_ready P env id hki hkp hen hreq hs hm h1m
  have hstep : probe_setup P env id = probe_variant P env id w := by
    unfold probe_setup
    rw [hw]
  unfold Classified at hc ⊢
  by_cases hd : id.device = 0x0000 ∨ id.device = 0x0010 ∨ id.device = 0x0020
  · obtain ⟨w1, hv, hinfo, hpx⟩ := probe_variant_hilscher P env id w hd
    exact ⟨w1, hstep.trans hv, by rw [hinfo]; exact hc, fun _ => hpx,
      fun h => absurd hd h, fun h => absurd hd h⟩
  · by_cases hsub : id.subdevice = 0x3335
    · obtain ⟨w1, hv, hinfo, hpx⟩ :=
        probe_variant_timed P env id w hd hsub (hkx hd) (hrw hd hsub)
      exact ⟨w1, hstep.trans hv, by rw [hinfo]; exact hc, fun h => absurd h hd,
        fun _ _ => hpx, fun _ h => absurd hsub h⟩
    · obtain ⟨w1, hv, hinfo, hpx⟩ := probe_variant_passive P env id w hd hsub (hkx hd)
      exact ⟨w1, hstep.trans hv, by rw [hinfo]; exact hc, fun h => absurd h hd,
        fun _ h => absurd h hsub, fun _ _ => hpx⟩

/-- C7 (counterexample): the tuple `(0x8086, 0x1234, 0, 0)` is not a row of
`netx_pci_ids`, yet `netx_pci_probe` returns 0 for it and registers a session
labelled `netx_plx` with a zeroed bridge record. -/
theorem netx_pci_probe_accepts_unlisted_identity :
    foreignId ∉ netx_pci_ids linux_x86_64 ∧
    (netx_pci_probe linux_x86_64 defaultParams (goodEnv 0) foreignId).map
      (fun r => (r.ret, r.session.map (fun w => (w.info.name, w.priv.pxa_info))))
      = some ((0 : Int),
          some ("netx_plx", some { plx := 0, dpm_mode := 0, plx_timing := 0 })) := by
  refine ⟨by decide, by decide⟩

/-- C7 (amended): when the set-up steps that `netx_pci_probe` runs for an
identity tuple succeed (lines 245-347: the two records are allocated, the
device is enabled, the regions are reserved, the BAR selected for the
dual-port memory is present and mapped, BAR 1 is absent or mapped, and, on a
bridge adapter only, the bridge record is allocated and, for subdevice
`0x3335` only, the register window in BAR 0 is mapped), probe builds a
session, for every identity tuple.  For each row of `netx_pci_ids` the
session is the documented one: Hilscher device `0x0000`, `0x0010`, `0x0020`
give label `netx`, `netplc`, `netjack`, BAR 0 as first region and no bridge
record; the bridge vendor/device pair gives label `netx_plx` and BAR 2 as
first region, with subdevice `0x3335` a bridge record holding the mapped
register window, a width mode of 8, 16 or 32 and its timing value, with
subdevice `0x3235` a zeroed bridge record.  A tuple that is no row of the
table is not rejected: any device id other than `0x0000`, `0x0010`, `0x0020`
is set up as a bridge adapter. -/
theorem probe_setup_classification (P : Platform) (env : Env) (id : pci_device_id)
    (hki : env.kzalloc Obj.info = true) (hkp : env.kzalloc Obj.priv = true)
    (hen : env.pci_enable_device = true) (hreq : env.pci_request_regions = true)
    (hs : env.pci_resource_start (probe_bar_name id).1 ≠ 0)
    (hm : ioremapBar env (probe_bar_name id).1 ≠ 0)
    (h1m : env.pci_resource_start 1 ≠ 0 → ioremapBar env 1 ≠ 0)
    (hkx : ¬ (id.device = 0x0000 ∨ id.device = 0x0010 ∨ id.device = 0x0020) →
      env.kzalloc Obj.pxa = true)
    (hrw : ¬ (id.device = 0x0000 ∨ id.device = 0x0010 ∨ id.device = 0x0020) →
      id.subdevice = 0x3335 → ioremapBar env 0 ≠ 0)
    (hplx : P.PCI_DEVICE_ID_PLX_9030 ∉ [0x0000, 0x0010, 0x0020]) :
    ∃ w, probe_setup P env id = some (Setup.ready w) ∧
      (id ∈ netx_pci_ids P →
        (id.vendor = 0x15CF ∧ id.device = 0x0000 ∧ Classified env w "netx" 0 ∧
            w.priv.pxa_info = none) ∨
        (id.vendor = 0x15CF ∧ id.device = 0x0010 ∧ Classified env w "netplc" 0 ∧
            w.priv.pxa_info = none) ∨
        (id.vendor = 0x15CF ∧ id.device = 0x0020 ∧ Classified env w "netjack" 0 ∧
            w.priv.pxa_info = none) ∨
        (id.vendor = P.PCI_VENDOR_ID_PLX ∧ id.device = P.PCI_DEVICE_ID_PLX_9030 ∧
            id.subdevice = 0x3335 ∧ Classified env w "netx_plx" 2 ∧
            ∃ mode timing,
              (mode, timing) ∈ [(8, 0x5431F962), (16, 0x4073F8E2), (32, 0x40824122)] ∧
              w.priv.pxa_info
                = some { plx := ioremapBar env 0, dpm_mode := mode, plx_timing := timing }) ∨
        (id.vendor = P.PCI_VENDOR_ID_PLX ∧ id.device = P.PCI_DEVICE_ID_PLX_9030 ∧
            id.subdevice = 0x3235 ∧ Classified env w "netx_plx" 2 ∧
            w.priv.pxa_info = some { plx := 0, dpm_mode := 0, plx_timing := 0 })) ∧
      (id.device ∉ [0x0000, 0x0010, 0x0020] →
        Classified env w "netx_plx" 2 ∧ w.priv.pxa_info.isSome = true) := by
  obtain ⟨w, hw, hc, hH, hT, hPs⟩ :=
    probe_setup_by_device P env id hki hkp hen hreq hs hm h1m hkx hrw
  have hp0 : P.PCI_DEVICE_ID_PLX_9030 ≠ 0 := fun h => hplx (by simp [h])
  have hp1 : P.PCI_DEVICE_ID_PLX_9030 ≠ 0x10 := fun h => hplx (by simp [h])
  have hp2 : P.PCI_DEVICE_ID_PLX_9030 ≠ 0x20 := fun h => hplx (by simp [h])
  refine ⟨w, hw, ?_, ?_⟩
  · intro hmem
    simp only [netx_pci_ids, List.mem_cons, List.mem_singleton, List.not_mem_nil, or_false] at hmem
    rcases hmem with h | h | h | h | h | h | h <;> subst h
    · exact Or.inl ⟨rfl, rfl,
        by simpa [probe_bar_name, PCI_DEVICE_ID_HILSCHER_NETX, DPM_BAR] using hc,
        hH (Or.inl rfl)⟩
    · have hnot : ¬ (P.PCI_DEVICE_ID_PLX_9030 = 0x0000 ∨ P.PCI_DEVICE_ID_PLX_9030 = 0x0010
          ∨ P.PCI_DEVICE_ID_PLX_9030 = 0x0020) := by simp [hp0, hp1, hp2]
      exact Or.inr (Or.inr (Or.inr (Or.inr ⟨rfl, rfl, rfl,
        by simpa [probe_bar_name, PCI_DEVICE_ID_HILSCHER_NETX, PCI_DEVICE_ID_HILSCHER_NETPLC,
          PCI_DEVICE_ID_HILSCHER_NETJACK, hp0, hp1, hp2, PLX_DPM_BAR] using hc,
        hPs hnot (by simp [PCI_SUBDEVICE_ID_NXSB_PCA])⟩)))
    · have hnot : ¬ (P.PCI_DEVICE_ID_PLX_9030 = 0x0000 ∨ P.PCI_DEVICE_ID_PLX_9030 = 0x0010
          ∨ P.PCI_DEVICE_ID_PLX_9030 = 0x0020) := by simp [hp0, hp1, hp2]
      exact Or.inr (Or.inr (Or.inr (Or.inl ⟨rfl, rfl, rfl,
        by simpa [probe_bar_name, PCI_DEVICE_ID_HILSCHER_NETX, PCI_DEVICE_ID_HILSCHER_NETPLC,
          PCI_DEVICE_ID_HILSCHER_NETJACK, hp0, hp1, hp2, PLX_DPM_BAR] using hc,
        hT hnot rfl⟩)))
    · exact Or.inr (Or.inl ⟨rfl, rfl,
        by simpa [probe_bar_name, PCI_DEVICE_ID_HILSCHER_NETX, PCI_DEVICE_ID_HILSCHER_NETPLC,
          DPM_BAR] using hc,
        hH (Or.inr (Or.inl rfl))⟩)
    · exact Or.inr (Or.inl ⟨rfl, rfl,
        by simpa [probe_bar_name, PCI_DEVICE_ID_HILSCHER_NETX, PCI_DEVICE_ID_HILSCHER_NETPLC,
          DPM_BAR] using hc,
        hH (Or.inr (Or.inl rfl))⟩)
    · exact Or.inr (Or.inr (Or.inl ⟨rfl, rfl,
        by simpa [probe_bar_name, PCI_DEVICE_ID_HILSCHER_NETX, PCI_DEVICE_ID_HILSCHER_NETPLC,
          PCI_DEVICE_ID_HILSCHER_NETJACK, DPM_BAR] using hc,
        hH (Or.inr (Or.inr rfl))⟩))
    · exact Or.inr (Or.inr (Or.inl ⟨rfl, rfl,
        by simpa [probe_bar_name, PCI_DEVICE_ID_HILSCHER_NETX, PCI_DEVICE_ID_HILSCHER_NETPLC,
          PCI_DEVICE_ID_HILSCHER_NETJACK, DPM_BAR] using hc,
        hH (Or.inr (Or.inr rfl))⟩))
  · intro hdev
    have hd0 : id.device ≠ 0 := fun h => hdev (by simp [h])
    have hd1 : id.device ≠ 0x10 := fun h => hdev (by simp [h])
    have hd2 : id.device ≠ 0x20 := fun h => hdev (by simp [h])
    have hnot : ¬ (id.device = 0x0000 ∨ id.device = 0x0010 ∨ id.device = 0x0020) := by
      simp [hd0, hd1, hd2]
    refine ⟨by simpa [probe_bar_name, PCI_DEVICE_ID_HILSCHER_NETX, PCI_DEVICE_ID_HILSCHER_NETPLC,
      PCI_DEVICE_ID_HILSCHER_NETJACK, hd0, hd1, hd2, PLX_DPM_BAR] using hc, ?_⟩
    by_cases hsub : id.subdevice = 0x3335
    · obtain ⟨mode, timing, _, hpx⟩ := hT hnot hsub
      rw [hpx]; rfl
    · rw [hPs hnot hsub]; rfl

/-- Witness for C7 (amended): the NXPCA-PCI adapter on a card where every
call succeeds, and a netX card that has BAR 0 only. -/
theorem probe_setup_classification_witness :
    (∃ w, probe_setup linux_x86_64 (goodEnv 0x20) nxpcaId = some (Setup.ready w) ∧
      Classified (goodEnv 0x20) w "netx_plx" 2) ∧
    (∃ w, probe_setup linux_x86_64 bar0Card netxId = some (Setup.ready w) ∧
      Classified bar0Card w "netx" 0 ∧ w.priv.pxa_info = none) := by
  constructor
  · obtain ⟨w, hw, htab, _⟩ := probe_setup_classification linux_x86_64 (goodEnv 0x20) nxpcaId
      rfl rfl rfl rfl (by decide) (by decide) (fun _ => by decide) (fun _ => rfl)
      (fun _ _ => by decide) (by decide)
    refine ⟨w, hw, ?_⟩
    rcases htab (by decide) with h | h | h | h | h
    · exact absurd h.1 (by decide)
    · exact absurd h.1 (by decide)
    · exact absurd h.1 (by decide)
    · exact h.2.2.2.1
    · exact h.2.2.2.1
  · obtain ⟨w, hw, htab, _⟩ := probe_setup_classification linux_x86_64 bar0Card netxId
      rfl rfl rfl rfl (by decide) (by decide) (fun h => absurd rfl h)
      (fun h => absurd (Or.inl rfl) h) (fun h => absurd (Or.inl rfl) h) (by decide)
    refine ⟨w, hw, ?_⟩
    rcases htab (by decide) with h | h | h | h | h
    · exact ⟨h.2.2.1, h.2.2.2⟩
    · exact absurd h.2.1 (by decide)
    · exact absurd h.2.1 (by decide)
    · exact absurd h.1 (by decide)
    · exact absurd h.1 (by decide)

/-! ## Probe: failure paths -/

/-- C4 (failing inputs): three single failures after which `netx_pci_probe`
returns `-ENODEV` with a record still allocated.  (1) `pci_enable_device`
fails on a netX card: the jump goes to `out_free`, which frees `info` only,
and the private record is never freed.  (2) Mapping the bridge register
window fails on an NXPCA-PCI adapter: the jump goes to `out_unmap`, past the
`kfree` of the bridge record.  (3) `uio_register_device` fails on an NXSB-PCA
adapter: again `out_unmap`, and the bridge record is never freed. -/
theorem netx_pci_probe_leaks_on_failure :
    (netx_pci_probe linux_x86_64 defaultParams
        { goodEnv 0 with pci_enable_device := false } netxId).map
      (fun r => (r.ret, acquired Obj.priv r.trace, released Obj.priv r.trace, r.trace))
      = some (-ENODEV, 1, 0,
          [Event.kzalloc Obj.info true,
           Event.kzalloc Obj.priv true,
           Event.pci_enable_device false,
           Event.kfree Obj.info true]) ∧
    (netx_pci_probe linux_x86_64 defaultParams
        { goodEnv 0 with
          ioremap_nocache := fun start _ => if start = 0xd0000000 then 0 else start + 0x1000000000 }
        nxpcaId).map
      (fun r => (r.ret, acquired Obj.pxa r.trace, released Obj.pxa r.trace, r.trace))
      = some (-ENODEV, 1, 0,
          [Event.kzalloc Obj.info true,
           Event.kzalloc Obj.priv true,
           Event.pci_enable_device true,
           Event.pci_request_regions true,
           Event.ioremap_nocache 0xd0200000 0x10000 0x10d0200000,
           Event.ioremap_nocache 0xd0100000 0x10000 0x10d0100000,
           Event.kzalloc Obj.pxa true,
           Event.ioremap_nocache 0xd0000000 0x10000 0,
           Event.iounmap 0x10d0200000,
           Event.iounmap 0x10d0100000,
           Event.pci_release_regions,
           Event.pci_disable_device,
           Event.kfree Obj.priv true,
           Event.kfree Obj.info true]) ∧
    (netx_pci_probe linux_x86_64 defaultParams
        { goodEnv 0 with uio_register_device := false } nxsbId).map
      (fun r => (r.ret, acquired Obj.pxa r.trace, released Obj.pxa r.trace, r.trace))
      = some (-ENODEV, 1, 0,
          [Event.kzalloc Obj.info true,
           Event.kzalloc Obj.priv true,
           Event.pci_enable_device true,
           Event.pci_request_regions true,
           Event.ioremap_nocache 0xd0200000 0x10000 0x10d0200000,
           Event.ioremap_nocache 0xd0100000 0x10000 0x10d0100000,
           Event.kzalloc Obj.pxa true,
           Event.pci_set_dma_mask,
           Event.pci_alloc_consistent 0x10000 0x2000000 0x3000000,
           Event.set_memory_uc 0x2000000 16,
           Event.uio_register_device false,
           Event.set_memory_wb 0x2000000 16,
           Event.pci_free_consistent 0x10000 0x2000000 0x3000000,
           Event.iounmap 0x10d0200000,
           Event.iounmap 0x10d0100000,
           Event.pci_release_regions,
           Event.pci_disable_device,
           Event.kfree Obj.priv true,
           Event.kfree Obj.info true]) := by
  refine ⟨by decide, by decide, by decide⟩

/-- C8 (failing input): a netX card without extended memory on which every
step other than DMA reservation succeeds (with DMA disabled probe returns 0),
`ulDMABufferCount = 4`, the third allocation fails.  The release loop run by
`add_dma` frees `mem[0]` and then indexes `mem[-1]`: probe has no defined
result.  When the second of two allocations fails probe does return 0, with
the dual-port memory entry `mem[0]` of the registered session cleared. -/
theorem netx_pci_probe_dma_failure_out_of_bounds :
    (netx_pci_probe linux_x86_64 { defaultParams with ulDMADisable := 1, ulDMABufferCount := 4 }
        (netxCard 3) netxId).map (fun r => r.ret) = some (0 : Int) ∧
    netx_pci_probe linux_x86_64 { defaultParams with ulDMABufferCount := 4 }
        (netxCard 3) netxId = none ∧
    (netx_pci_probe linux_x86_64 { defaultParams with ulDMABufferCount := 2 }
        (netxCard 2) netxId).map
      (fun r => (r.ret, r.session.map (fun w => (w.info.mem 0, w.priv.dmacount, w.priv.memcount))))
      = some ((0 : Int),
          some ({ name := "dpm", addr := 0, size := 0, memtype := 1, internal_addr := 0 },
                (-1 : Int), (0 : Int))) := by
  refine ⟨by decide, ?_, by decide⟩
  have h : (netx_pci_probe linux_x86_64 { defaultParams with ulDMABufferCount := 4 }
      (netxCard 3) netxId).isNone = true := by decide
  exact Option.isNone_iff_eq_none.mp h

/-! ## Live sessions -/

/-- Lines 245-311 leave the counters and the second entry as the remove path
expects them. -/
theorem probe_windows_shape (P : Platform) (env : Env) (id : pci_device_id)
    (hki : env.kzalloc Obj.info = true) (hkp : env.kzalloc Obj.priv = true)
    (hen : env.pci_enable_device = true) (hreq : env.pci_request_regions = true)
    (hs : env.pci_resource_start (probe_bar_name id).1 ≠ 0)
    (hm : ioremapBar env (probe_bar_name id).1 ≠ 0)
    (h1m : env.pci_resource_start 1 ≠ 0 → ioremapBar env 1 ≠ 0) (hmax : 2 ≤ P.MAX_UIO_MAPS) :
    ∃ nw w, probe_windows P env id = some (Setup.ready w) ∧ LiveShape P w nw 0 := by
  by_cases he : env.pci_resource_start 1 = 0
  · refine ⟨1, ?_⟩
    simp [probe_windows, hki, hkp, hen, hreq, hs, hm, he, EXT_MEM_BAR, DPM_INDEX, EXT_MEM_INDEX, setMem,
      emit, World.fresh, LiveShape, uio_mem.zero]
    omega
  · have hem := h1m he
    refine ⟨2, ?_⟩
    simp [probe_windows, hki, hkp, hen, hreq, hs, hm, he, hem, EXT_MEM_BAR, DPM_INDEX, EXT_MEM_INDEX,
      setMem, emit, World.fresh, LiveShape, uio_mem.zero]
    omega

/-- The per-variant step, when its kernel calls succeed, leaves `info` and
the two counters alone. -/
theorem probe_variant_frame (P : Platform) (env : Env) (id : pci_device_id) (w : World)
    (hkx : ¬ (id.device = 0x0000 ∨ id.device = 0x0010 ∨ id.device = 0x0020) →
      env.kzalloc Obj.pxa = true)
    (hrw : ¬ (id.device = 0x0000 ∨ id.device = 0x0010 ∨ id.device = 0x0020) →
      id.subdevice = 0x3335 → ioremapBar env 0 ≠ 0) :
    ∃ w1, probe_variant P env id w = some (Setup.ready w1) ∧ w1.info = w.info ∧
      w1.priv.dmacount = w.priv.dmacount ∧ w1.priv.memcount = w.priv.memcount := by
  have hn0 := not32_land_ne_zero (w.io (ioremapBar env 0 + 4 * 0x15)) 0x4 (by norm_num)
  have hn1 := not32_land_ne_zero (w.io (ioremapBar env 0 + 4 * 0x15)) 0x20 (by norm_num)
  have hz : not32 0 ≠ 0 := by decide
  unfold probe_variant
  by_cases hd : id.device = PCI_DEVICE_ID_HILSCHER_NETX ∨ id.device = PCI_DEVICE_ID_HILSCHER_NETPLC
      ∨ id.device = PCI_DEVICE_ID_HILSCHER_NETJACK
  · rw [if_pos hd]
    simp [setPxa, iowrite32]
  · rw [if_neg hd]
    have hd0 : ¬ (id.device = 0x0000 ∨ id.device = 0x0010 ∨ id.device = 0x0020) := by
      simpa [PCI_DEVICE_ID_HILSCHER_NETX, PCI_DEVICE_ID_HILSCHER_NETPLC,
        PCI_DEVICE_ID_HILSCHER_NETJACK] using hd
    have hk : env.kzalloc Obj.pxa = true := hkx hd0
    by_cases hsub : id.subdevice = PCI_SUBDEVICE_ID_NXPCA
    · rw [if_pos hsub]
      have h0m : ioremapBar env 0 ≠ 0 :=
        hrw hd0 (by simpa [PCI_SUBDEVICE_ID_NXPCA] using hsub)
      by_cases g0 : w.io (ioremapBar env 0 + 4 * 0x15) &&& 0x4 = 0
      · by_cases g1 : w.io (ioremapBar env 0 + 4 * 0x15) &&& 0x20 = 0
        · simp [hk, PXA_PLX_BAR, h0m, netx_pxa_get_dpm_mode, netx_pxa_get_plx_timing,
            netx_pxa_set_plx_timing, setPxa, emit, iowrite32, PLX_GPIO_OFFSET,
            PLX_GPIO_DATA0_MASK, PLX_GPIO_DATA1_MASK, g0, g1, hn0, hn1, hz]
        · simp [hk, PXA_PLX_BAR, h0m, netx_pxa_get_dpm_mode, netx_pxa_get_plx_timing,
            netx_pxa_set_plx_timing, setPxa, emit, iowrite32, PLX_GPIO_OFFSET,
            PLX_GPIO_DATA0_MASK, PLX_GPIO_DATA1_MASK, g0, g1, hn0, hn1, hz]
      · simp [hk, PXA_PLX_BAR, h0m, netx_pxa_get_dpm_mode, netx_pxa_get_plx_timing,
          netx_pxa_set_plx_timing, setPxa, emit, iowrite32, PLX_GPIO_OFFSET,
          PLX_GPIO_DATA0_MASK, PLX_GPIO_DATA1_MASK, g0, hn0, hn1, hz]
    · rw [if_neg hsub]
      simp [hk, setPxa, emit]

/-- Assigning `memcount` leaves the other fields of the session alone. -/
theorem setMemcount_frame (w : World) (v : Int) :
    (setMemcount w v).priv.dmacount = w.priv.dmacount ∧
    (setMemcount w v).priv.memcount = v ∧
    (setMemcount w v).priv.pxa_info = w.priv.pxa_info ∧
    (setMemcount w v).info = w.info :=
  ⟨rfl, rfl, rfl, rfl⟩

/-- The loop of `add_dma` when each remaining allocation succeeds and the
entries it fills lie inside the array: it runs to its end, returns 0 and
records one buffer per iteration behind the `m` regions present. -/
theorem add_dma_loop_ok (P : Platform) (cfg : ModParams) (env : Env) (m : Nat) :
    ∀ (r i : Nat) (w : World),
      (∀ j, i ≤ j → j < i + r → (env.pci_alloc_consistent j).1 ≠ 0) →
      w.priv.memcount = (m : Int) → m + i + r ≤ P.MAX_UIO_MAPS →
      ∃ w1, add_dma_loop P cfg env r i w = some (0, w1) ∧
        w1.priv.dmacount = w.priv.dmacount + (r : Int) ∧
        w1.priv.memcount
          = toInt32 ((toULong P (m : Int) + cfg.ulDMABufferCount) % 2 ^ P.BITS_PER_LONG : Nat) ∧
        w1.priv.pxa_info = w.priv.pxa_info ∧
        (∀ j, j < m + i → w1.info.mem j = w.info.mem j) ∧
        (∀ j, m + i + r ≤ j → w1.info.mem j = w.info.mem j) := by
  intro r
  induction r with
  | zero =>
    intro i w _ hm _
    have hf := setMemcount_frame w
      (toInt32 ((toULong P w.priv.memcount + cfg.ulDMABufferCount) % 2 ^ P.BITS_PER_LONG : Nat))
    refine ⟨setMemcount w
      (toInt32 ((toULong P w.priv.memcount + cfg.ulDMABufferCount) % 2 ^ P.BITS_PER_LONG : Nat)),
      ?_, ?_, ?_, hf.2.2.1, ?_, ?_⟩
    · simp only [add_dma_loop]
    · rw [hf.1, Nat.cast_zero, add_zero]
    · rw [hf.2.1, hm]
    · intro j _
      rw [hf.2.2.2]
    · intro j _
      rw [hf.2.2.2]
  | succ r ih =>
    intro i w halloc hm hcap
    have ha : (env.pci_alloc_consistent i).1 ≠ 0 := halloc i le_rfl (by omega)
    have hin : (0 : Int) ≤ (i : Int) + (m : Int) ∧ (i : Int) + (m : Int) < (P.MAX_UIO_MAPS : Int) := by
      constructor
      · positivity
      · exact_mod_cast (by omega : i + m < P.MAX_UIO_MAPS)
    have htn : ((i : Int) + (m : Int)).toNat = i + m := by
      have : (i : Int) + (m : Int) = ((i + m : Nat) : Int) := by push_cast; ring
      rw [this, Int.toNat_ofNat]
    obtain ⟨w1, hr, hdc, hmc, hpx, hlo, hhi⟩ := ih (i + 1)
      { info := { w.info with mem := (Function.update w.info.mem (i + m)
                    { name := DMA_MEM_NAME, addr := (env.pci_alloc_consistent i).2,
                      size := cfg.ulDMABufferSize, memtype := P.UIO_MEM_PHYS,
                      internal_addr := (env.pci_alloc_consistent i).1 }) },
        priv := { w.priv with dmacount := w.priv.dmacount + 1 },
        io := w.io,
        trace := w.trace ++
          [Event.pci_alloc_consistent cfg.ulDMABufferSize (env.pci_alloc_consistent i).1
             (env.pci_alloc_consistent i).2,
           Event.set_memory_uc (env.pci_alloc_consistent i).1
             (cfg.ulDMABufferSize >>> P.PAGE_SHIFT)] }
      (fun j h1 h2 => halloc j (by omega) (by omega)) hm (by omega)
    refine ⟨w1, ?_, ?_, hmc, hpx, ?_, ?_⟩
    · rw [← hr]
      simp only [add_dma_loop, create_dma_buffer, memSet, emit, ha, hm, hin, htn, if_false,
        and_self, if_true, ne_eq, not_true_eq_false, List.append_assoc, List.singleton_append]
    · rw [hdc]; push_cast; ring
    · intro j hj
      rw [hlo j (by omega)]
      exact Function.update_noteq (by omega) _ _
    · intro j hj
      rw [hhi j (by omega)]
      exact Function.update_noteq (by omega) _ _

/-- A small region count converts to `unsigned long` unchanged. -/
theorem toULong_small (P : Platform) (m : Nat) (h : m < 2 ^ P.BITS_PER_LONG) :
    toULong P (m : Int) = m := by
  unfold toULong
  rw [Int.emod_eq_of_lt (Int.natCast_nonneg m) (by exact_mod_cast h), Int.toNat_ofNat]

/-- The capacity test rejects a count that exceeds the array without
wrapping: `add_dma` returns `-ENOMEM` and changes nothing. -/
theorem add_dma_rejects (P : Platform) (cfg : ModParams) (env : Env) (w : World) (m : Nat)
    (hm : w.priv.memcount = (m : Int))
    (hover : P.MAX_UIO_MAPS < m + cfg.ulDMABufferCount)
    (hwrap : m + cfg.ulDMABufferCount < 2 ^ P.BITS_PER_LONG) :
    add_dma P cfg env w = some (-ENOMEM, w) := by
  have hu : toULong P (m : Int) = m := toULong_small P m (by omega)
  unfold add_dma
  rw [hm, hu, Nat.mod_eq_of_lt hwrap, if_pos hover]

/-- A small count converts to `int32_t` unchanged. -/
theorem toInt32_small (x : Nat) (h : x < 2 ^ 31) : toInt32 (x : Int) = (x : Int) := by
  unfold toInt32
  omega

/-- When the count fits and every allocation succeeds `add_dma` returns 0
with `dmacount` and `memcount` raised by the count. -/
theorem add_dma_ok (P : Platform) (cfg : ModParams) (env : Env) (w : World) (m : Nat)
    (hm : w.priv.memcount = (m : Int)) (hd : w.priv.dmacount = 0)
    (hfit : m + cfg.ulDMABufferCount ≤ P.MAX_UIO_MAPS)
    (hB : P.MAX_UIO_MAPS < 2 ^ P.BITS_PER_LONG) (h31 : P.MAX_UIO_MAPS < 2 ^ 31)
    (halloc : ∀ j, j < cfg.ulDMABufferCount → (env.pci_alloc_consistent j).1 ≠ 0) :
    ∃ w1, add_dma P cfg env w = some (0, w1) ∧
      w1.priv.dmacount = (cfg.ulDMABufferCount : Int) ∧
      w1.priv.memcount = ((m + cfg.ulDMABufferCount : Nat) : Int) ∧
      (∀ j, j < m → w1.info.mem j = w.info.mem j) ∧
      (∀ j, m + cfg.ulDMABufferCount ≤ j → w1.info.mem j = w.info.mem j) := by
  have hu : toULong P (m : Int) = m := toULong_small P m (by omega)
  have hsum : (m + cfg.ulDMABufferCount) % 2 ^ P.BITS_PER_LONG = m + cfg.ulDMABufferCount :=
    Nat.mod_eq_of_lt (by omega)
  have hd0 : (emit Event.pci_set_dma_mask w).priv.dmacount = 0 := hd
  obtain ⟨w1, hr, hdc, hmc, _, hlo, hhi⟩ := add_dma_loop_ok P cfg env m cfg.ulDMABufferCount 0
    (emit Event.pci_set_dma_mask w) (fun j _ h2 => halloc j (by omega)) hm (by omega)
  refine ⟨w1, ?_, ?_, ?_, ?_, ?_⟩
  · unfold add_dma
    rw [hm, hu, hsum, if_neg (by omega)]
    exact hr
  · rw [hdc, hd0, zero_add]
  · rw [hmc, hu, hsum]
    exact toInt32_small _ (by omega)
  · intro j hj
    exact hlo j (by omega)
  · intro j hj
    exact hhi j (by omega)

/-- `LiveShape` depends on the two counters and on `mem[1]` only. -/
theorem LiveShape.transfer (P : Platform) (w w1 : World) (nw d : Nat) (h : LiveShape P w nw d)
    (hd : w1.priv.dmacount = w.priv.dmacount) (hm : w1.priv.memcount = w.priv.memcount)
    (h1 : w1.info.mem 1 = w.info.mem 1) : LiveShape P w1 nw d := by
  unfold LiveShape at h ⊢
  rw [hd, hm, h1]
  exact h

/-- Probe returns 0 and stores a live session whenever every step other than
DMA reservation succeeds and the DMA step is disabled, refused by the
capacity test, or reserves every buffer. -/
theorem netx_pci_probe_live (P : Platform) (cfg : ModParams) (env : Env) (id : pci_device_id)
    (hki : env.kzalloc Obj.info = true) (hkp : env.kzalloc Obj.priv = true)
    (hen : env.pci_enable_device = true) (hreq : env.pci_request_regions = true)
    (hs : env.pci_resource_start (probe_bar_name id).1 ≠ 0)
    (hm : ioremapBar env (probe_bar_name id).1 ≠ 0)
    (h1m : env.pci_resource_start 1 ≠ 0 → ioremapBar env 1 ≠ 0)
    (hkx : ¬ (id.device = 0x0000 ∨ id.device = 0x0010 ∨ id.device = 0x0020) →
      env.kzalloc Obj.pxa = true)
    (hrw : ¬ (id.device = 0x0000 ∨ id.device = 0x0010 ∨ id.device = 0x0020) →
      id.subdevice = 0x3335 → ioremapBar env 0 ≠ 0)
    (hreg : env.uio_register_device = true)
    (hmax : 2 ≤ P.MAX_UIO_MAPS)
    (hB : P.MAX_UIO_MAPS < 2 ^ P.BITS_PER_LONG) (h31 : P.MAX_UIO_MAPS < 2 ^ 31)
    (hdma : cfg.ulDMADisable ≠ 0 ∨
      (P.MAX_UIO_MAPS < 1 + cfg.ulDMABufferCount ∧
        2 + cfg.ulDMABufferCount < 2 ^ P.BITS_PER_LONG) ∨
      (2 + cfg.ulDMABufferCount ≤ P.MAX_UIO_MAPS ∧
        ∀ j, j < cfg.ulDMABufferCount → (env.pci_alloc_consistent j).1 ≠ 0)) :
    ∃ r w nw d, netx_pci_probe P cfg env id = some r ∧ r.ret = 0 ∧ r.session = some w ∧
      LiveShape P w nw d := by
  obtain ⟨nw, w, hw, hshape⟩ := probe_windows_shape P env id hki hkp hen hreq hs hm h1m hmax
  obtain ⟨w1, hv, hinfo, hdc, hmc⟩ := probe_variant_frame P env id w hkx hrw
  have hshape1 : LiveShape P w1 nw 0 :=
    LiveShape.transfer P w w1 nw 0 hshape hdc hmc (by rw [hinfo])
  have hprobe : netx_pci_probe P cfg env id = probe_finish P cfg env id w1 := by
    unfold netx_pci_probe probe_setup
    rw [hw]
    simp only [hv]
  have hnw : nw = 1 ∨ nw = 2 := hshape1.1
  have hm1 : w1.priv.memcount = (nw : Int) := by simpa using hshape1.2.2.1
  have hd1 : w1.priv.dmacount = 0 := by simpa using hshape1.2.1
  have hskip : (cfg.ulDMADisable ≠ 0 ∨ add_dma P cfg env w1 = some (-ENOMEM, w1)) →
      ∃ r w, netx_pci_probe P cfg env id = some r ∧ r.ret = 0 ∧ r.session = some w ∧
        LiveShape P w nw 0 := by
    intro hcase
    refine ⟨ProbeResult.mk 0
        (emit (Event.pci_set_drvdata true)
          (emit (Event.uio_register_device env.uio_register_device) w1)).trace
        (some (emit (Event.pci_set_drvdata true)
          (emit (Event.uio_register_device env.uio_register_device) w1))),
      emit (Event.pci_set_drvdata true)
        (emit (Event.uio_register_device env.uio_register_device) w1), ?_, rfl, rfl,
      LiveShape.transfer P w1 _ nw 0 hshape1 rfl rfl rfl⟩
    rw [hprobe]
    by_cases hdis : cfg.ulDMADisable = 0
    · rcases hcase with hne | hrej
      · exact absurd hdis hne
      · simp only [probe_finish, hdis, hreg, hrej, if_true, Option.map, Bool.true_eq_false,
          if_false]
    · simp only [probe_finish, hdis, hreg, if_false, Bool.true_eq_false]
  rcases hdma with hdis | ⟨hover, hwrap⟩ | ⟨hfit, halloc⟩
  · obtain ⟨r, w', h1, h2', h3, h4⟩ := hskip (Or.inl hdis)
    exact ⟨r, w', nw, 0, h1, h2', h3, h4⟩
  · obtain ⟨r, w', h1, h2', h3, h4⟩ :=
      hskip (Or.inr (add_dma_rejects P cfg env w1 nw hm1 (by omega) (by omega)))
    exact ⟨r, w', nw, 0, h1, h2', h3, h4⟩
  · by_cases hdis : cfg.ulDMADisable = 0
    · obtain ⟨w2, hadd, h2d, h2m', hlo, hhi⟩ :=
        add_dma_ok P cfg env w1 nw hm1 hd1 (by omega) hB h31 halloc
      refine ⟨ProbeResult.mk 0
        (emit (Event.pci_set_drvdata true)
          (emit (Event.uio_register_device env.uio_register_device) w2)).trace
        (some (emit (Event.pci_set_drvdata true)
          (emit (Event.uio_register_device env.uio_register_device) w2))),
        emit (Event.pci_set_drvdata true)
          (emit (Event.uio_register_device env.uio_register_device) w2), nw,
        cfg.ulDMABufferCount, ?_, rfl, rfl, ?_⟩
      · rw [hprobe]
        simp only [probe_finish, hdis, hreg, hadd, if_true, Option.map, Bool.true_eq_false,
          if_false]
      · refine ⟨hnw, h2d, h2m', by omega, ?_, ?_⟩
        · intro h
          show (w2.info.mem 1).internal_addr ≠ 0
          rw [hlo 1 (by omega)]
          exact hshape1.2.2.2.2.1 h
        · intro h hz
          show (w2.info.mem 1).internal_addr = 0
          rw [hhi 1 (by omega)]
          exact hshape1.2.2.2.2.2 h rfl
    · obtain ⟨r, w', h1, h2', h3, h4⟩ := hskip (Or.inl hdis)
      exact ⟨r, w', nw, 0, h1, h2', h3, h4⟩

/-! ## Remove -/

/-- The release calls depend on the entries `mem[nw] .. mem[nw + d - 1]` only. -/
theorem dmaReleaseEvents_congr (P : Platform) (m1 m2 : Nat → uio_mem) (nw : Nat) :
    ∀ d, (∀ j, nw ≤ j → j < nw + d → m1 j = m2 j) →
      dmaReleaseEvents P m1 nw d = dmaReleaseEvents P m2 nw d := by
  intro d
  induction d with
  | zero => intro _; rfl
  | succ d ih =>
    intro h
    have hd : m1 (nw + d) = m2 (nw + d) := h (nw + d) (by omega) (by omega)
    have ih1 := ih (fun j h1 h2 => h j h1 (by omega))
    simp only [dmaReleaseEvents, hd, ih1]

/-- The release loop on a session whose `d` DMA buffers sit right behind its
`nw` memory windows: it terminates inside the array, frees those buffers last
first, clears their entries and leaves everything else alone. -/
theorem release_dma_loop_ok (P : Platform) (nw : Nat) :
    ∀ (d : Nat) (w : World), w.priv.dmacount = (d : Int) →
      w.priv.memcount = ((nw + d : Nat) : Int) → nw + d ≤ P.MAX_UIO_MAPS →
      ∃ w1, release_dma_loop P d w = some w1 ∧
        w1.trace = w.trace ++ dmaReleaseEvents P w.info.mem nw d ∧
        w1.priv.pxa_info = w.priv.pxa_info ∧ w1.io = w.io ∧
        w1.priv.dmacount = -1 ∧ w1.priv.memcount = (nw : Int) ∧
        (∀ j, j < nw → w1.info.mem j = w.info.mem j) ∧
        (∀ j, nw ≤ j → j < nw + d → (w1.info.mem j).internal_addr = 0) ∧
        (∀ j, nw + d ≤ j → w1.info.mem j = w.info.mem j) := by
  intro d
  induction d with
  | zero =>
    intro w hd hm _
    refine ⟨_, rfl, ?_, rfl, rfl, ?_, ?_, fun _ _ => rfl, ?_, fun _ _ => rfl⟩
    · simp [dmaReleaseEvents]
    · simp [hd]
    · simpa using hm
    · intro j h1 h2; omega
  | succ d ih =>
    intro w hd hm hcap
    have hidx : w.priv.memcount - 1 = ((nw + d : Nat) : Int) := by
      rw [hm]; push_cast; ring
    have hin : (0 : Int) ≤ ((nw + d : Nat) : Int) ∧ ((nw + d : Nat) : Int) < (P.MAX_UIO_MAPS : Int) := by
      constructor
      · exact Int.natCast_nonneg _
      · exact_mod_cast (by omega : nw + d < P.MAX_UIO_MAPS)
    have hstep : ∃ w4 : World, release_dma_loop P (d + 1) w = release_dma_loop P d w4 ∧
        w4.priv.dmacount = w.priv.dmacount - 1 ∧ w4.priv.memcount = w.priv.memcount - 1 ∧
        w4.priv.pxa_info = w.priv.pxa_info ∧ w4.io = w.io ∧
        w4.info.mem = Function.update w.info.mem (nw + d)
          { w.info.mem (nw + d) with addr := 0, size := 0, internal_addr := 0 } ∧
        w4.trace = w.trace ++
          [Event.set_memory_wb (w.info.mem (nw + d)).internal_addr
             ((w.info.mem (nw + d)).size >>> P.PAGE_SHIFT),
           Event.pci_free_consistent (w.info.mem (nw + d)).size
             (w.info.mem (nw + d)).internal_addr (w.info.mem (nw + d)).addr] := by
      refine ⟨
        { info := { w.info with mem := (Function.update w.info.mem (nw + d)
                      { w.info.mem (nw + d) with addr := 0, size := 0, internal_addr := 0 }) },
          priv := { w.priv with dmacount := w.priv.dmacount - 1, memcount := w.priv.memcount - 1 },
          io := w.io,
          trace := w.trace ++
            [Event.set_memory_wb (w.info.mem (nw + d)).internal_addr
               ((w.info.mem (nw + d)).size >>> P.PAGE_SHIFT),
             Event.pci_free_consistent (w.info.mem (nw + d)).size
               (w.info.mem (nw + d)).internal_addr (w.info.mem (nw + d)).addr] },
        ?_, rfl, rfl, rfl, rfl, rfl, rfl⟩
      simp only [release_dma_loop, memGet, memSet, emit, hidx, hin, and_self, if_true,
        Int.toNat_ofNat, List.append_assoc, List.singleton_append]
    obtain ⟨w4, hstep, h4d, h4m, h4p, h4io, h4mem, h4tr⟩ := hstep
    obtain ⟨w1, hr, htr, hpx, hio, hdc, hmc, hlo, hmid, hhi⟩ := ih w4
      (by rw [h4d, hd]; push_cast; ring) (by rw [h4m]; exact hidx) (by omega)
    refine ⟨w1, hstep.trans hr, ?_, hpx.trans h4p, hio.trans h4io, hdc, hmc, ?_, ?_, ?_⟩
    · rw [htr, h4tr, h4mem]
      have hc := dmaReleaseEvents_congr P
        (Function.update w.info.mem (nw + d)
          { w.info.mem (nw + d) with addr := 0, size := 0, internal_addr := 0 })
        w.info.mem nw d
        (fun j _ h2 => Function.update_noteq (by omega) _ _)
      simp only [hc, dmaReleaseEvents, List.append_assoc]
    · intro j hj
      rw [hlo j hj, h4mem]
      exact Function.update_noteq (by omega) _ _
    · intro j h1 h2
      by_cases hj : j = nw + d
      · subst hj
        rw [hhi (nw + d) le_rfl, h4mem]
        simp
      · exact hmid j h1 (by omega)
    · intro j hj
      rw [hhi j (by omega), h4mem]
      exact Function.update_noteq (by omega) _ _

/-- The part of `netx_pci_remove` after unregistration (lines 413-423), run
on a session `w4` that differs from `w` in its trace only. -/
theorem remove_tail (P : Platform) (w w4 : World) (nw d : Nat) (pre : List Event)
    (hnw : nw = 1 ∨ nw = 2)
    (hinfo : w4.info = w.info) (hpriv : w4.priv = w.priv) (htr : w4.trace = w.trace ++ pre)
    (hd : w.priv.dmacount = (d : Int)) (hm : w.priv.memcount = ((nw + d : Nat) : Int))
    (hcap : nw + d ≤ P.MAX_UIO_MAPS)
    (h2 : nw = 2 → (w.info.mem 1).internal_addr ≠ 0)
    (h1 : nw = 1 → d = 0 → (w.info.mem 1).internal_addr = 0) :
    ∃ w5, release_dma_mem P w4 = some w5 ∧
      (remove_finish w5).trace
      = w.trace ++ (pre ++ dmaReleaseEvents P w.info.mem nw d
          ++ [Event.pci_release_regions, Event.pci_disable_device, Event.pci_set_drvdata false,
              Event.iounmap (w.info.mem 0).internal_addr]
          ++ (if nw = 2 then [Event.iounmap (w.info.mem 1).internal_addr] else [])
          ++ [Event.kfree Obj.priv true, Event.kfree Obj.info true]) := by
  obtain ⟨w5, hr, h5tr, _, _, _, _, hlo, hmid, hhi⟩ := release_dma_loop_ok P nw d w4
    (by rw [hpriv]; exact hd) (by rw [hpriv]; exact hm) hcap
  have hdn : w4.priv.dmacount.toNat = d := by rw [hpriv, hd]; simp
  refine ⟨w5, by unfold release_dma_mem; rw [hdn]; exact hr, ?_⟩
  have hm0 : w5.info.mem 0 = w.info.mem 0 := by
    rw [hlo 0 (by omega), hinfo]
  rcases hnw with hnw | hnw
  · have hm1 : (w5.info.mem 1).internal_addr = 0 := by
      by_cases hd0 : d = 0
      · rw [hhi 1 (by omega), hinfo]; exact h1 hnw hd0
      · exact hmid 1 (by omega) (by omega)
    simp [remove_finish, emit, DPM_INDEX, EXT_MEM_INDEX, hm0, hm1, h5tr, htr, hinfo, hnw]
  · have hm1 : w5.info.mem 1 = w.info.mem 1 := by
      rw [hlo 1 (by omega), hinfo]
    have hne := h2 hnw
    simp [remove_finish, emit, DPM_INDEX, EXT_MEM_INDEX, hm0, hm1, h5tr, htr, hinfo, hnw, hne]

/-- C10 (amended): on a live session with `nw` mapped memory windows (one, or
two when the extended memory is mapped) followed by `d` DMA buffers, as
probe stores it when the DMA step was disabled, refused by the capacity test
or reserved every buffer, `netx_pci_remove` terminates and issues exactly these calls in this order:
first, without bridge record, the store of 0 to the enable register, or, with
one, the unmapping of the bridge register window (when mapped) and the
release of the bridge record; then `uio_unregister_device`; then the DMA
buffers, last allocated first; then `pci_release_regions`,
`pci_disable_device` and `pci_set_drvdata(NULL)`; then the unmapping of the
dual-port memory and, when mapped, of the extended memory; then the release
of the private record and of `info`. -/
theorem netx_pci_remove_order (P : Platform) (w : World) (nw d : Nat)
    (hlive : LiveShape P w nw d) :
    ∃ w1, netx_pci_remove P w = some w1 ∧ w1.trace = w.trace ++ removeEvents P w nw d := by
  obtain ⟨hnw, hd, hm, hcap, h2, h1⟩ := hlive
  cases hp : w.priv.pxa_info with
  | none =>
    obtain ⟨w5, hr, ht⟩ := remove_tail P w
      (emit Event.uio_unregister_device
        (iowrite32 0 ((w.info.mem DPM_INDEX).internal_addr + DPM_HOST_INT_EN0) w)) nw d
      [Event.write32 ((w.info.mem 0).internal_addr + 0xfff0) 0, Event.uio_unregister_device]
      hnw rfl rfl (by simp [emit, iowrite32, DPM_INDEX, DPM_HOST_INT_EN0]) hd hm hcap h2 h1
    refine ⟨remove_finish w5, ?_, ?_⟩
    · simp only [netx_pci_remove, hp, hr]
    · rw [ht]
      simp [removeEvents, removeQuiesceEvents, hp]
  | some pxa =>
    by_cases hplx : pxa.plx = 0
    · obtain ⟨w5, hr, ht⟩ := remove_tail P w
        (emit Event.uio_unregister_device (emit (Event.kfree Obj.pxa true) w)) nw d
        [Event.kfree Obj.pxa true, Event.uio_unregister_device]
        hnw rfl rfl (by simp [emit]) hd hm hcap h2 h1
      refine ⟨remove_finish w5, ?_, ?_⟩
      · simp [netx_pci_remove, hp, hplx, hr]
      · rw [ht]
        simp [removeEvents, removeQuiesceEvents, hp, hplx]
    · obtain ⟨w5, hr, ht⟩ := remove_tail P w
        (emit Event.uio_unregister_device (emit (Event.kfree Obj.pxa true)
          (emit (Event.iounmap pxa.plx) w))) nw d
        [Event.iounmap pxa.plx, Event.kfree Obj.pxa true, Event.uio_unregister_device]
        hnw rfl rfl (by simp [emit]) hd hm hcap h2 h1
      refine ⟨remove_finish w5, ?_, ?_⟩
      · simp [netx_pci_remove, hp, hplx, hr]
      · rw [ht]
        simp [removeEvents, removeQuiesceEvents, hp, hplx]

/-- Witness for C10 (amended): the live NXPCA-PCI session with two windows
and one DMA buffer. -/
theorem netx_pci_remove_order_witness :
    ∃ w1, netx_pci_remove linux_x86_64 nxpcaLive = some w1 ∧ w1.trace = nxpcaRemoveCalls := by
  obtain ⟨w1, h, ht⟩ := netx_pci_remove_order linux_x86_64 nxpcaLive 2 1
    ⟨Or.inr rfl, rfl, rfl, by decide, fun _ => by decide, fun h => absurd h (by decide)⟩
  refine ⟨w1, h, ?_⟩
  rw [ht]
  decide

/-- C10 (counterexample): the session probe stores for an NXPCA-PCI adapter
(two memory windows, one DMA buffer) and the calls `netx_pci_remove` issues on
it.  The bridge register window is unmapped and the bridge record freed
before `uio_unregister_device`, and both memory windows are unmapped after
`pci_release_regions` and `pci_disable_device`. -/
theorem netx_pci_remove_not_reverse_order :
    (netx_pci_probe linux_x86_64 defaultParams (goodEnv 0x20) nxpcaId).map
      (fun r => (r.ret, r.session.map (fun w => (w.priv, (List.range 5).map w.info.mem))))
      = some ((0 : Int), some (nxpcaLive.priv, (List.range 5).map nxpcaLive.info.mem)) ∧
    ((netx_pci_probe linux_x86_64 defaultParams (goodEnv 0x20) nxpcaId).bind
      (fun r => r.session.bind (fun w => (netx_pci_remove linux_x86_64 w).map
        (fun w1 => w1.trace.drop w.trace.length)))) = some nxpcaRemoveCalls ∧
    nxpcaRemoveCalls.indexOf (Event.iounmap 0x10d0000000)
      < nxpcaRemoveCalls.indexOf Event.uio_unregister_device ∧
    nxpcaRemoveCalls.indexOf (Event.kfree Obj.pxa true)
      < nxpcaRemoveCalls.indexOf Event.uio_unregister_device ∧
    nxpcaRemoveCalls.indexOf Event.pci_release_regions
      < nxpcaRemoveCalls.indexOf (Event.iounmap 0x10d0200000) ∧
    nxpcaRemoveCalls.indexOf Event.pci_release_regions
      < nxpcaRemoveCalls.indexOf (Event.iounmap 0x10d0100000) := by
  refine ⟨by decide, by decide, by decide, by decide, by decide, by decide⟩

end UioNetx
